import Mathlib

/-!
Verification development for the reward scoring engine of the GraphR1
repository (`examples/reward_function/dapo_graph.py`).

The Python code is shallowly embedded: JSON values become the inductive
type `Json`; Python's float arithmetic on scores is modelled over `ℚ`
(every score produced by the engine is a small rational and no claim
depends on binary floating-point rounding); operations that can raise a
Python exception (`TypeError` for unhashable set elements or non-iterable
values, `AttributeError` for `.get` on non-dicts, `ValueError` for the
batch-shape check) return `Except PyErr _`.  `json.loads` is modelled by
an executable recursive-descent parser for the JSON fragment actually
used by the engine and its fixtures (null/true/false, integer numerals,
strings with the standard escapes, arrays, objects); JSON floats are not
modelled, which only shrinks the set of strings satisfying parse
hypotheses.  Python `dict`s are modelled as insertion-ordered key/value
lists with unique keys (the parser replaces on duplicate keys, matching
`json.loads` last-wins semantics).
-/

/-- A JSON value as produced by Python `json.loads` (restricted to integer
numbers). `null` doubles as Python `None`, exactly as in CPython where the
JSON null and `None` are the same object. -/
inductive Json where
  | null : Json
  | bool (b : Bool) : Json
  | num (n : Int) : Json
  | str (s : String) : Json
  | arr (xs : List Json) : Json
  | obj (kvs : List (String × Json)) : Json

mutual

/-- Structural boolean equality on `Json` (kernel-reducible). -/
def Json.beq : Json → Json → Bool
  | .null, .null => true
  | .bool a, .bool b => a == b
  | .num a, .num b => a == b
  | .str a, .str b => a == b
  | .arr xs, .arr ys => Json.beqList xs ys
  | .obj a, .obj b => Json.beqKVs a b
  | _, _ => false

def Json.beqList : List Json → List Json → Bool
  | [], [] => true
  | x :: xs, y :: ys => Json.beq x y && Json.beqList xs ys
  | _, _ => false

def Json.beqKVs : List (String × Json) → List (String × Json) → Bool
  | [], [] => true
  | (k, v) :: xs, (k2, v2) :: ys => k == k2 && Json.beq v v2 && Json.beqKVs xs ys
  | _, _ => false

end

instance : BEq Json := ⟨Json.beq⟩


namespace Json

/-- `isinstance(x, list)`. -/
def isArr : Json → Bool
  | .arr _ => true
  | _ => false

/-- `isinstance(x, str)`. -/
def isStr : Json → Bool
  | .str _ => true
  | _ => false

/-- `isinstance(x, bool)`. -/
def isBool : Json → Bool
  | .bool _ => true
  | _ => false

def isObj : Json → Bool
  | .obj _ => true
  | _ => false

/-- Python truthiness of a JSON value (`if x:`). -/
def truthy : Json → Bool
  | .null => false
  | .bool b => b
  | .num n => n != 0
  | .str s => !s.isEmpty
  | .arr xs => !xs.isEmpty
  | .obj kvs => !kvs.isEmpty

/-- Python hashability: lists and dicts are unhashable. -/
def hashable : Json → Bool
  | .arr _ => false
  | .obj _ => false
  | _ => true

end Json

/-- A Python exception escaping the engine. -/
inductive PyErr where
  | typeError (msg : String) : PyErr
  | attributeError (msg : String) : PyErr
  | valueError (msg : String) : PyErr
  deriving DecidableEq

/-- Key lookup in an (insertion-ordered, duplicate-free) dict. -/
def lookupKV : List (String × Json) → String → Option Json
  | [], _ => none
  | (k, v) :: kvs, key => if k == key then some v else lookupKV kvs key

/-- Dict insertion with Python semantics: an existing key keeps its
position and gets the new value, a new key is appended. -/
def insertKV : List (String × Json) → String → Json → List (String × Json)
  | [], key, v => [(key, v)]
  | (k, w) :: kvs, key, v =>
      if k == key then (k, v) :: kvs else (k, w) :: insertKV kvs key v

/-- Ordered insertion for key-sorting dicts (used only by `canonJson`). -/
def insertSortedKV (kv : String × Json) : List (String × Json) → List (String × Json)
  | [] => [kv]
  | x :: xs =>
      match compare kv.1 x.1 with
      | .gt => x :: insertSortedKV kv xs
      | _ => kv :: x :: xs

def sortKVs : List (String × Json) → List (String × Json)
  | [] => []
  | kv :: kvs => insertSortedKV kv (sortKVs kvs)

mutual

/-- Canonical form under Python `==`: `True == 1` and `False == 0`, so
booleans are collapsed into numbers; dict comparison ignores key order,
so object keys are sorted.  Two JSON values are Python-`==` iff their
canonical forms are structurally equal. -/
def canonJson : Json → Json
  | .null => .null
  | .bool b => .num (if b then 1 else 0)
  | .num n => .num n
  | .str s => .str s
  | .arr xs => .arr (canonList xs)
  | .obj kvs => .obj (sortKVs (canonKVs kvs))

def canonList : List Json → List Json
  | [] => []
  | x :: xs => canonJson x :: canonList xs

def canonKVs : List (String × Json) → List (String × Json)
  | [] => []
  | (k, v) :: kvs => (k, canonJson v) :: canonKVs kvs

end

/-- Python `==` on JSON values. -/
def pyEq (a b : Json) : Bool := canonJson a == canonJson b

/-- Membership of a canonical value in a list of canonical values
(Python set membership after hashing). -/
def memB (x : Json) (xs : List Json) : Bool := xs.any (fun y => y == x)

/-- Order-preserving deduplication (building a Python set). -/
def dedupB : List Json → List Json :=
  List.foldl (fun acc x => if memB x acc then acc else acc ++ [x]) []

/-- Python set equality of two deduplicated canonical lists. -/
def setEqB (xs ys : List Json) : Bool :=
  xs.all (fun x => memB x ys) && ys.all (fun y => memB y xs)

/-- `.get(key)` on a Python value: `AttributeError` unless it is a dict,
`None` (= `Json.null`) when the key is missing. -/
def dictGet : Json → String → Except PyErr Json
  | .obj kvs, key => .ok ((lookupKV kvs key).getD .null)
  | _, _ => .error (.attributeError "object has no attribute get")

/-- `.get(key, default)` on a Python value. -/
def dictGetD : Json → String → Json → Except PyErr Json
  | .obj kvs, key, dflt => .ok ((lookupKV kvs key).getD dflt)
  | _, _, _ => .error (.attributeError "object has no attribute get")

/-- `key in x` for a dict receiver (`TypeError` otherwise; every receiver
in the engine is a parsed JSON object, which is always a dict). -/
def pyHasKey : Json → String → Except PyErr Bool
  | .obj kvs, key => .ok (lookupKV kvs key).isSome
  | _, _ => .error (.typeError "argument is not a container")

/-- `x in S` / `x not in S` for a Python set `S` of strings: hashes the
candidate first, so unhashable values raise `TypeError`. -/
def pyInStrSet (x : Json) (s : List String) : Except PyErr Bool :=
  match x with
  | .arr _ => .error (.typeError "unhashable type")
  | .obj _ => .error (.typeError "unhashable type")
  | .str v => .ok (s.contains v)
  | _ => .ok false

/-- Python iteration `for y in x`: lists yield elements, strings yield
one-character strings, dicts yield their keys, everything else raises
`TypeError`. -/
def pyIter : Json → Except PyErr (List Json)
  | .arr xs => .ok xs
  | .str s => .ok (s.data.map (fun c => Json.str (String.singleton c)))
  | .obj kvs => .ok (kvs.map (fun kv => Json.str kv.1))
  | _ => .error (.typeError "object is not iterable")

/-- `set(x)`: iterate `x`, hash each element (unhashable elements raise
`TypeError`), and deduplicate under Python `==`. -/
def pySet (x : Json) : Except PyErr (List Json) :=
  match pyIter x with
  | .error e => .error e
  | .ok xs =>
      if xs.all Json.hashable then .ok (dedupB (xs.map canonJson))
      else .error (.typeError "unhashable type")

/-- The Python set literal `{a, b}` (both elements hashed). -/
def pyPairSet (a b : Json) : Except PyErr (List Json) :=
  if a.hashable && b.hashable then .ok (dedupB [canonJson a, canonJson b])
  else .error (.typeError "unhashable type")

/-! ### The JSON parser modelling `json.loads` -/

/-- JSON whitespace as accepted by `json.loads` between tokens. -/
def isJsonWs (c : Char) : Bool := c == ' ' || c == '\t' || c == '\n' || c == '\r'

def skipWs (cs : List Char) : List Char := cs.dropWhile isJsonWs

def hexVal (c : Char) : Option Nat :=
  if '0' ≤ c && c ≤ '9' then some (c.toNat - 48)
  else if 'a' ≤ c && c ≤ 'f' then some (c.toNat - 87)
  else if 'A' ≤ c && c ≤ 'F' then some (c.toNat - 55)
  else none

/-- Body of a JSON string after the opening quote: returns the decoded
characters and the remainder after the closing quote.  Strict mode:
unescaped control characters are rejected. -/
def parseStrBody : List Char → Option (List Char × List Char)
  | [] => none
  | '"' :: rest => some ([], rest)
  | '\\' :: '"' :: rest => (parseStrBody rest).map (fun p => ('"' :: p.1, p.2))
  | '\\' :: '\\' :: rest => (parseStrBody rest).map (fun p => ('\\' :: p.1, p.2))
  | '\\' :: '/' :: rest => (parseStrBody rest).map (fun p => ('/' :: p.1, p.2))
  | '\\' :: 'b' :: rest => (parseStrBody rest).map (fun p => ('\x08' :: p.1, p.2))
  | '\\' :: 'f' :: rest => (parseStrBody rest).map (fun p => ('\x0c' :: p.1, p.2))
  | '\\' :: 'n' :: rest => (parseStrBody rest).map (fun p => ('\n' :: p.1, p.2))
  | '\\' :: 'r' :: rest => (parseStrBody rest).map (fun p => ('\r' :: p.1, p.2))
  | '\\' :: 't' :: rest => (parseStrBody rest).map (fun p => ('\t' :: p.1, p.2))
  | '\\' :: 'u' :: h1 :: h2 :: h3 :: h4 :: rest =>
      match hexVal h1, hexVal h2, hexVal h3, hexVal h4 with
      | some a, some b, some c, some d =>
          (parseStrBody rest).map
            (fun p => (Char.ofNat (((a * 16 + b) * 16 + c) * 16 + d) :: p.1, p.2))
      | _, _, _, _ => none
  | '\\' :: _ => none
  | c :: rest =>
      if c.toNat < 32 then none
      else (parseStrBody rest).map (fun p => (c :: p.1, p.2))

def isDigit (c : Char) : Bool := '0' ≤ c && c ≤ '9'

def natOfDigits (ds : List Char) : Nat :=
  ds.foldl (fun n c => n * 10 + (c.toNat - 48)) 0

/-- A JSON integer numeral: optional minus, then `0` or a nonzero-led
digit run.  A following `.`, `e` or `E` would start a JSON float, which
this model does not support (the parser rejects the input instead; no
claim involves float payloads). -/
def parseNum (cs : List Char) : Option (Json × List Char) :=
  let core : List Char → Option (Int × List Char) := fun body =>
    match body with
    | '0' :: rest =>
        if rest.headD ' ' |> isDigit then none else some (0, rest)
    | c :: rest =>
        if isDigit c && c != '0' then
          let ds := rest.takeWhile isDigit
          some ((natOfDigits (c :: ds) : Int), rest.dropWhile isDigit)
        else none
    | [] => none
  match cs with
  | '-' :: body =>
      match core body with
      | some (n, rest) =>
          if (rest.headD ' ' == '.') || (rest.headD ' ' == 'e') || (rest.headD ' ' == 'E')
          then none else some (.num (-n), rest)
      | none => none
  | body =>
      match core body with
      | some (n, rest) =>
          if (rest.headD ' ' == '.') || (rest.headD ' ' == 'e') || (rest.headD ' ' == 'E')
          then none else some (.num n, rest)
      | none => none

mutual

/-- Fueled recursive-descent JSON value parser. -/
def parseVal : Nat → List Char → Option (Json × List Char)
  | 0, _ => none
  | fuel + 1, cs =>
      match skipWs cs with
      | '{' :: rest =>
          (match skipWs rest with
           | '}' :: r2 => some (.obj [], r2)
           | cs2 => parseObjItems fuel cs2 [])
      | '[' :: rest =>
          (match skipWs rest with
           | ']' :: r2 => some (.arr [], r2)
           | cs2 => parseArrItems fuel cs2 [])
      | '"' :: rest =>
          (parseStrBody rest).map (fun p => (.str (String.mk p.1), p.2))
      | 't' :: 'r' :: 'u' :: 'e' :: rest => some (.bool true, rest)
      | 'f' :: 'a' :: 'l' :: 's' :: 'e' :: rest => some (.bool false, rest)
      | 'n' :: 'u' :: 'l' :: 'l' :: rest => some (.null, rest)
      | cs2 => parseNum cs2

def parseArrItems : Nat → List Char → List Json → Option (Json × List Char)
  | 0, _, _ => none
  | fuel + 1, cs, acc =>
      match parseVal fuel cs with
      | none => none
      | some (v, rest) =>
          match skipWs rest with
          | ',' :: r2 => parseArrItems fuel r2 (acc ++ [v])
          | ']' :: r2 => some (.arr (acc ++ [v]), r2)
          | _ => none

def parseObjItems : Nat → List Char → List (String × Json) → Option (Json × List Char)
  | 0, _, _ => none
  | fuel + 1, cs, acc =>
      match skipWs cs with
      | '"' :: rest =>
          (match parseStrBody rest with
           | none => none
           | some (kcs, r1) =>
               match skipWs r1 with
               | ':' :: r2 =>
                   (match parseVal fuel r2 with
                    | none => none
                    | some (v, r3) =>
                        let acc2 := insertKV acc (String.mk kcs) v
                        match skipWs r3 with
                        | ',' :: r4 => parseObjItems fuel r4 acc2
                        | '}' :: r4 => some (.obj acc2, r4)
                        | _ => none)
               | _ => none)
      | _ => none

end

/-- `json.loads` on a character list: parse one value, then require only
whitespace to follow (otherwise Python raises the caught
`JSONDecodeError`, i.e. the result is `none`). -/
def jsonLoads (cs : List Char) : Option Json :=
  match parseVal (cs.length + 1) cs with
  | some (v, rest) => if (skipWs rest).isEmpty then some v else none
  | none => none

/-! ### The answer extractor modelling `re.search(r"Answer\s*:\s*(\x7b.*\x7d)", response, re.DOTALL)` -/

/-- Python regex `\s` on ASCII text (also the `str.strip` whitespace set
restricted to ASCII). -/
def isPySpace (c : Char) : Bool :=
  c == ' ' || c == '\t' || c == '\n' || c == '\r' || c == '\x0b' || c == '\x0c'

def dropPySpace (cs : List Char) : List Char := cs.dropWhile isPySpace

/-- Python `str.strip()`: drop leading and trailing whitespace. -/
def pyStrip (cs : List Char) : List Char :=
  ((dropPySpace cs).reverse.dropWhile isPySpace).reverse

/-- Match the prefix part `Answer\s*:\s*\x7b` of the extraction regex at
the head of `cs`; on success return the suffix of `cs` starting at the
matched opening brace.  (`\s*` followed by a non-whitespace literal is
deterministic: skip the maximal whitespace run, then require the
literal.) -/
def afterLabel : List Char → Option (List Char)
  | 'A' :: 'n' :: 's' :: 'w' :: 'e' :: 'r' :: rest =>
      (match dropPySpace rest with
       | ':' :: r2 =>
           (match dropPySpace r2 with
            | '{' :: r3 => some ('{' :: r3)
            | _ => none)
       | _ => none)
  | _ => none

/-- `re.search(r"Answer\s*:\s*\x7b", response)` as used by the format
check: does the prefix pattern match anywhere? -/
def patternFound : List Char → Bool
  | [] => false
  | c :: cs => (afterLabel (c :: cs)).isSome || patternFound cs

/-- Keep everything up to and including the last `\x7d`; the greedy
`.*` under `re.DOTALL` makes the capture group end at the last closing
brace of the text. -/
def takeToLastClose (s : List Char) : List Char :=
  (s.reverse.dropWhile (fun c => c != '}')).reverse

/-- Leftmost match of the full regex `Answer\s*:\s*(\x7b.*\x7d)` with
`re.DOTALL`: scan start positions left to right; a start position
matches only if the prefix pattern matches there and some closing brace
follows the opening brace; the capture group then runs from that opening
brace to the last closing brace of the text. -/
def scanExtract : List Char → Option (List Char)
  | [] => none
  | c :: cs =>
      match afterLabel (c :: cs) with
      | some s => if s.tail.contains '}' then some (takeToLastClose s) else scanExtract cs
      | none => scanExtract cs

/-- `extract_answer_json`: find the capture group, strip it, parse it as
JSON; any failure yields `none`. -/
def extract_answer_json (response : String) : Option Json :=
  match scanExtract response.data with
  | none => none
  | some cap => jsonLoads (pyStrip cap)

/-! ### The schema validator `format_reward` -/

def VALID_ACTION_TYPES : List String :=
  ["press", "rotate", "pull", "open", "push", "close", "insert"]

def VALID_FUNCTIONAL_RELATIONSHIPS : List String :=
  ["openorclose", "adjust", "control", "providepower", "activate"]

def VALID_SPATIAL_RELATIONS : List String :=
  ["left_of", "right_of", "in_front_of", "behind", "higher_than",
   "lower_than", "close", "far", "touching"]

/-- `all(field in j for field in fields)`, short-circuiting. -/
def requiredFieldsCheck (j : Json) : List String → Except PyErr Bool
  | [] => .ok true
  | f :: fs =>
      match pyHasKey j f with
      | .error e => .error e
      | .ok true => requiredFieldsCheck j fs
      | .ok false => .ok false

/-- `for rel in spatial_rels: if rel not in VALID_SPATIAL_RELATIONS: ...`;
membership hashes `rel`, so an unhashable element raises. -/
def checkSpatialElems : List Json → Except PyErr Bool
  | [] => .ok true
  | r :: rs =>
      match pyInStrSet r VALID_SPATIAL_RELATIONS with
      | .error e => .error e
      | .ok true => checkSpatialElems rs
      | .ok false => .ok false

/-- The `for edge in answer_json.get("edges", [])` loop of
`format_reward`: each failed check returns 0.0 for the whole call,
passing every edge reaches the final `return 1.0`. -/
def checkEdgesList : List Json → Except PyErr ℚ
  | [] => .ok 1
  | edge :: rest => do
      if !edge.isObj then return 0
      let ok1 ← requiredFieldsCheck edge
        ["functional_relationship", "object1", "object2", "spatial_relations", "is_touching"]
      if !ok1 then return 0
      let fr ← dictGet edge "functional_relationship"
      let b1 ← pyInStrSet fr VALID_FUNCTIONAL_RELATIONSHIPS
      if !b1 then return 0
      let sr ← dictGetD edge "spatial_relations" (.arr [])
      if !sr.isArr then return 0
      let rl ← pyIter sr
      let b2 ← checkSpatialElems rl
      if !b2 then return 0
      let it ← dictGet edge "is_touching"
      if !it.isBool then return 0
      checkEdgesList rest

/-- `format_reward`: the schema validator, returning 1.0 or 0.0 (or
raising, when a membership test hashes an unhashable payload value). -/
def format_reward (response : String) : Except PyErr ℚ := do
  if !patternFound response.data then return 0
  match extract_answer_json response with
  | none => return 0
  | some answer_json => do
      let ok1 ← requiredFieldsCheck answer_json
        ["task_instruction", "nodes", "edges", "action_type", "function_type"]
      if !ok1 then return 0
      let nodes ← dictGet answer_json "nodes"
      if !nodes.isArr then return 0
      let edges ← dictGet answer_json "edges"
      if !edges.isArr then return 0
      let ti ← dictGet answer_json "task_instruction"
      if !ti.isStr then return 0
      let act ← dictGet answer_json "action_type"
      let b1 ← pyInStrSet act VALID_ACTION_TYPES
      if !b1 then return 0
      let edgesVal ← dictGetD answer_json "edges" (.arr [])
      let el ← pyIter edgesVal
      checkEdgesList el

/-! ### Graph and edge similarity -/

/-- `len(A & B)` for two Python sets given as deduplicated lists. -/
def interCount (a b : List Json) : Nat := (a.filter (fun x => memB x b)).length

/-- `len(A | B)` for two Python sets given as deduplicated lists. -/
def unionCount (a b : List Json) : Nat := (a ++ b.filter (fun y => !memB y a)).length

/-- Jaccard index of two Python sets (given as deduplicated canonical
lists), with the code's `if union > 0` guard. -/
def jaccardQ (a b : List Json) : ℚ :=
  if 0 < unionCount a b then (interCount a b : ℚ) / (unionCount a b : ℚ) else 0

/-- Objects component of `calculate_edge_similarity`: unordered pair
`{object1, object2}` compared by set equality. -/
def edgeObjectsScore (pred_edge gt_edge : Json) : Except PyErr ℚ := do
  let po1 ← dictGet pred_edge "object1"
  let po2 ← dictGet pred_edge "object2"
  let ps ← pyPairSet po1 po2
  let go1 ← dictGet gt_edge "object1"
  let go2 ← dictGet gt_edge "object2"
  let gs ← pyPairSet go1 go2
  return if setEqB ps gs then 1 else 0

/-- Functional-relationship component: exact equality. -/
def edgeFunctionalScore (pred_edge gt_edge : Json) : Except PyErr ℚ := do
  let fp ← dictGet pred_edge "functional_relationship"
  let fg ← dictGet gt_edge "functional_relationship"
  return if pyEq fp fg then 1 else 0

/-- Spatial-relations component: Jaccard of the two sets, 0 when the
ground-truth set is empty. -/
def edgeSpatialScore (pred_edge gt_edge : Json) : Except PyErr ℚ := do
  let sp ← dictGetD pred_edge "spatial_relations" (.arr [])
  let ps ← pySet sp
  let sg ← dictGetD gt_edge "spatial_relations" (.arr [])
  let gs ← pySet sg
  return if !gs.isEmpty then jaccardQ ps gs else 0

/-- Is-touching component: exact equality. -/
def edgeTouchingScore (pred_edge gt_edge : Json) : Except PyErr ℚ := do
  let tp ← dictGet pred_edge "is_touching"
  let tg ← dictGet gt_edge "is_touching"
  return if pyEq tp tg then 1 else 0

/-- `calculate_edge_similarity`: unweighted average of the four
components. -/
def calculate_edge_similarity (pred_edge gt_edge : Json) : Except PyErr ℚ := do
  let c1 ← edgeObjectsScore pred_edge gt_edge
  let c2 ← edgeFunctionalScore pred_edge gt_edge
  let c3 ← edgeSpatialScore pred_edge gt_edge
  let c4 ← edgeTouchingScore pred_edge gt_edge
  return (c1 + c2 + c3 + c4) / 4

/-- `best_match = 0.0; for pred_edge in pred_edges: best_match =
max(best_match, calculate_edge_similarity(pred_edge, gt_edge))`. -/
def bestMatchAux : List Json → Json → ℚ → Except PyErr ℚ
  | [], _, acc => .ok acc
  | p :: ps, g, acc => do
      let s ← calculate_edge_similarity p g
      bestMatchAux ps g (max acc s)

def bestMatch (pred_edges : List Json) (gt_edge : Json) : Except PyErr ℚ :=
  bestMatchAux pred_edges gt_edge 0

/-- `edge_score = 0.0; for gt_edge in gt_edges: edge_score +=
best_match`. -/
def edgeScoreSum (pred_edges : List Json) : List Json → Except PyErr ℚ
  | [] => .ok 0
  | g :: gs => do
      let m ← bestMatch pred_edges g
      let rest ← edgeScoreSum pred_edges gs
      return m + rest

/-- Edges component of `calculate_graph_similarity` as a function of the
raw `edges` values: guarded by the truthiness of the ground-truth value,
per-ground-truth-edge best match averaged over the ground-truth count,
then the `0.1 × excess` penalty floored at 0 when the predicted count
exceeds the ground-truth count. -/
def edgesComponent (pred_edges_val gt_edges_val : Json) : Except PyErr ℚ := do
  if !gt_edges_val.truthy then return 0
  let gl ← pyIter gt_edges_val
  let pl ← pyIter pred_edges_val
  let s ← edgeScoreSum pl gl
  let avg := s / (gl.length : ℚ)
  if pl.length > gl.length then
    return max 0 (avg - ((pl.length : ℚ) - (gl.length : ℚ)) * (1 / 10))
  else
    return avg

/-- `calculate_graph_similarity`: average of five components (exact
instruction / action type / function type matches, node-set Jaccard,
edges component). -/
def calculate_graph_similarity (pred_json gt_json : Json) : Except PyErr ℚ := do
  if pred_json == Json.null || gt_json == Json.null then return 0
  let tp ← dictGet pred_json "task_instruction"
  let tg ← dictGet gt_json "task_instruction"
  let c1 : ℚ := if pyEq tp tg then 1 else 0
  let ap ← dictGet pred_json "action_type"
  let ag ← dictGet gt_json "action_type"
  let c2 : ℚ := if pyEq ap ag then 1 else 0
  let fp ← dictGet pred_json "function_type"
  let fg ← dictGet gt_json "function_type"
  let c3 : ℚ := if pyEq fp fg then 1 else 0
  let np ← dictGetD pred_json "nodes" (.arr [])
  let ps ← pySet np
  let ng ← dictGetD gt_json "nodes" (.arr [])
  let gs ← pySet ng
  let c4 : ℚ := if !gs.isEmpty then jaccardQ ps gs else 0
  let ep ← dictGetD pred_json "edges" (.arr [])
  let eg ← dictGetD gt_json "edges" (.arr [])
  let c5 ← edgesComponent ep eg
  return (c1 + c2 + c3 + c4 + c5) / 5

/-! ### Accuracy, length penalty and aggregation -/

/-- The DAPO discretization of similarity into reward buckets. -/
def dapoBucket (similarity : ℚ) : ℚ :=
  if similarity ≥ 98 / 100 then 1
  else if similarity ≥ 85 / 100 then 8 / 10
  else if similarity ≥ 7 / 10 then 5 / 10
  else if similarity ≥ 5 / 10 then 2 / 10
  else if similarity ≥ 3 / 10 then 0
  else -(5 / 10)

/-- `accuracy_reward`: extract, parse ground truth, gate on the format
check, then discretized graph similarity. -/
def accuracy_reward (response ground_truth : String) : Except PyErr ℚ :=
  let pred_json := extract_answer_json response
  match jsonLoads (pyStrip ground_truth.data) with
  | none => .ok (-(5 / 10))
  | some gt_json =>
      match pred_json with
      | none => .ok (-(5 / 10))
      | some pj =>
          match format_reward response with
          | .error e => .error e
          | .ok f =>
              if f = 0 then .ok 0
              else
                match calculate_graph_similarity pj gt_json with
                | .error e => .error e
                | .ok sim => .ok (dapoBucket sim)

/-- `soft_overlong_punishment` (pure integer/float arithmetic). -/
def soft_overlong_punishment
    (response_length max_response_length overlong_buffer_length : Int) : ℚ :=
  let expected_len := max_response_length - overlong_buffer_length
  if response_length ≤ expected_len then 0
  else if response_length ≤ max_response_length then
    ((expected_len : ℚ) - (response_length : ℚ)) / (overlong_buffer_length : ℚ)
  else -1

/-- One per-sample input record of `compute_score`. -/
structure RewardInput where
  response : String
  ground_truth : String

/-- One per-sample output record of `compute_score`. -/
structure RewardScores where
  overall : ℚ
  format : ℚ
  accuracy : ℚ
  overlong : ℚ
  accuracy_normalized : ℚ
  deriving DecidableEq

/-- The per-sample body of the `compute_score` loop. -/
def scoreOne (max_response_length overlong_buffer_length : Int)
    (overlong_penalty_factor format_weight : ℚ) (ri : RewardInput) :
    Except PyErr RewardScores := do
  let format_score ← format_reward ri.response
  let accuracy_score ← accuracy_reward ri.response ri.ground_truth
  let overlong_score := soft_overlong_punishment (ri.response.length : Int)
    max_response_length overlong_buffer_length
  return ⟨format_weight * format_score + (1 - format_weight) * accuracy_score
            + overlong_score * overlong_penalty_factor,
          format_score, accuracy_score, overlong_score,
          (5 / 10) * (accuracy_score + 1)⟩

/-- `compute_score` on a batch (the `isinstance(reward_inputs, list)`
batch-shape check is subsumed by the argument type; a sequence value of
any other Python type would raise `ValueError` in the source).  The
first per-sample exception aborts the whole batch. -/
def compute_score (reward_inputs : List RewardInput)
    (max_response_length overlong_buffer_length : Int)
    (overlong_penalty_factor format_weight : ℚ) :
    Except PyErr (List RewardScores) :=
  match reward_inputs with
  | [] => .ok []
  | ri :: rest =>
      match scoreOne max_response_length overlong_buffer_length
          overlong_penalty_factor format_weight ri with
      | .error e => .error e
      | .ok r =>
          match compute_score rest max_response_length overlong_buffer_length
              overlong_penalty_factor format_weight with
          | .error e => .error e
          | .ok rs => .ok (r :: rs)

/-! ### Concrete fixtures (the reference scenario of the spec and the
auxiliary inputs used by counterexamples and witnesses) -/

/-- The reference ground-truth JSON text (domain fixture). -/
def gtS : String := "\x7b\"task_instruction\":\"Power on the toaster.\",\"nodes\":[\"electric outlet\",\"toaster\"],\"edges\":[\x7b\"functional_relationship\":\"providepower\",\"object1\":\"electric outlet\",\"object2\":\"toaster\",\"spatial_relations\":[\"higher_than\",\"right_of\",\"in_front_of\",\"close\"],\"is_touching\":false\x7d],\"action_type\":\"insert\",\"function_type\":\"power_supply\"\x7d"

/-- The single edge of the reference ground truth. -/
def gtEdge : Json := Json.obj [
  ("functional_relationship", .str "providepower"),
  ("object1", .str "electric outlet"),
  ("object2", .str "toaster"),
  ("spatial_relations", .arr [.str "higher_than", .str "right_of", .str "in_front_of", .str "close"]),
  ("is_touching", .bool false)]

/-- The parsed reference ground truth. -/
def gtJ : Json := Json.obj [
  ("task_instruction", .str "Power on the toaster."),
  ("nodes", .arr [.str "electric outlet", .str "toaster"]),
  ("edges", .arr [gtEdge]),
  ("action_type", .str "insert"),
  ("function_type", .str "power_supply")]

/-- The reference payload with `action_type` changed to `"press"`. -/
def pressS : String := "\x7b\"task_instruction\":\"Power on the toaster.\",\"nodes\":[\"electric outlet\",\"toaster\"],\"edges\":[\x7b\"functional_relationship\":\"providepower\",\"object1\":\"electric outlet\",\"object2\":\"toaster\",\"spatial_relations\":[\"higher_than\",\"right_of\",\"in_front_of\",\"close\"],\"is_touching\":false\x7d],\"action_type\":\"press\",\"function_type\":\"power_supply\"\x7d"

/-- The parsed `"press"` payload. -/
def pressJ : Json := Json.obj [
  ("task_instruction", .str "Power on the toaster."),
  ("nodes", .arr [.str "electric outlet", .str "toaster"]),
  ("edges", .arr [gtEdge]),
  ("action_type", .str "press"),
  ("function_type", .str "power_supply")]

/-- Response carrying the exact reference payload. -/
def rGood : String := "Answer: " ++ gtS

/-- Response carrying the `"press"` payload. -/
def rPress : String := "Answer: " ++ pressS

/-- Response with no `Answer:` field at all. -/
def rNo : String := "I cannot determine the graph."

/-- A predicted edge sharing nothing with `gtEdge` (every edge-similarity
component scores 0 against it). -/
def mismatchEdge : Json := Json.obj [
  ("functional_relationship", .str "adjust"),
  ("object1", .str "lamp"),
  ("object2", .str "desk"),
  ("spatial_relations", .arr [.str "far"]),
  ("is_touching", .bool true)]

/-- An edge value with the schema's five keys in the canonical layout
(used to state object1/object2 swap invariance). -/
def mkEdgeJson (o1 o2 fr sr it : Json) : Json := Json.obj [
  ("functional_relationship", fr),
  ("object1", o1),
  ("object2", o2),
  ("spatial_relations", sr),
  ("is_touching", it)]

/-- Response whose payload passes every schema check until the
`action_type not in VALID_ACTION_TYPES` membership test hashes the
unhashable list value `[]`. -/
def badHashResp : String := "Answer: \x7b\"task_instruction\": \"x\", \"nodes\": [], \"edges\": [], \"action_type\": [], \"function_type\": \"f\"\x7d"

/-- Response whose payload has a numeric `function_type`, non-string
`nodes` elements and non-string `object1`/`object2`, while every check
`format_reward` actually performs passes. -/
def c10Resp : String := "Answer: \x7b\"task_instruction\": \"turn on the lamp\", \"nodes\": [3, \"lamp\"], \"edges\": [\x7b\"functional_relationship\": \"control\", \"object1\": 7, \"object2\": true, \"spatial_relations\": [\"close\"], \"is_touching\": true\x7d], \"action_type\": \"press\", \"function_type\": 5\x7d"

/-- The substring that `extract_answer_json` hands to `json.loads`
(capture group of the regex, then `.strip()`). -/
def answerJsonStr (response : String) : Option (List Char) :=
  (scanExtract response.data).map pyStrip

/-- Modelled from the claim wording of C3 (not from the source): capture
from the first opening brace of the first label occurrence to the end of
the text, then trim trailing whitespace. -/
def c3SpecCapture : List Char → Option (List Char)
  | [] => none
  | c :: cs =>
      match afterLabel (c :: cs) with
      | some s => some ((s.reverse.dropWhile isPySpace).reverse)
      | none => c3SpecCapture cs

/-- Counterexample response for C3: non-whitespace text after the last
closing brace. -/
def c3Resp : String := "Answer: \x7b\x7d x"

/-- Multi-answer response demonstrating first-match-to-last-brace
capture. -/
def c3Multi : String := "Answer: \x7b\"a\": 1\x7d mid Answer: \x7b\"b\": 2\x7d tail"

/-- Response whose label is never followed by any closing brace. -/
def c3NoClose : String := "Answer: \x7b x"

def slashEdge : Json := mkEdgeJson (.str "faucet / handle") (.str "sink")
  (.str "control") (.arr [.str "close"]) (.bool true)

def baseEdge : Json := mkEdgeJson (.str "faucet") (.str "sink")
  (.str "control") (.arr [.str "close"]) (.bool true)


/-! ### Proof infrastructure: lawfulness of the equality test and
decidability instances -/

mutual

theorem Json.eq_of_beq : ∀ {a b : Json}, Json.beq a b = true → a = b
  | .null, .null, _ => rfl
  | .bool a, .bool b, h => by
      simp only [Json.beq, beq_iff_eq] at h; exact congrArg Json.bool h
  | .num a, .num b, h => by
      simp only [Json.beq, beq_iff_eq] at h; exact congrArg Json.num h
  | .str a, .str b, h => by
      simp only [Json.beq, beq_iff_eq] at h; exact congrArg Json.str h
  | .arr xs, .arr ys, h => congrArg Json.arr (Json.eqList_of_beq h)
  | .obj a, .obj b, h => congrArg Json.obj (Json.eqKVs_of_beq h)
  | .null, .bool _, h => nomatch h
  | .null, .num _, h => nomatch h
  | .null, .str _, h => nomatch h
  | .null, .arr _, h => nomatch h
  | .null, .obj _, h => nomatch h
  | .bool _, .null, h => nomatch h
  | .bool _, .num _, h => nomatch h
  | .bool _, .str _, h => nomatch h
  | .bool _, .arr _, h => nomatch h
  | .bool _, .obj _, h => nomatch h
  | .num _, .null, h => nomatch h
  | .num _, .bool _, h => nomatch h
  | .num _, .str _, h => nomatch h
  | .num _, .arr _, h => nomatch h
  | .num _, .obj _, h => nomatch h
  | .str _, .null, h => nomatch h
  | .str _, .bool _, h => nomatch h
  | .str _, .num _, h => nomatch h
  | .str _, .arr _, h => nomatch h
  | .str _, .obj _, h => nomatch h
  | .arr _, .null, h => nomatch h
  | .arr _, .bool _, h => nomatch h
  | .arr _, .num _, h => nomatch h
  | .arr _, .str _, h => nomatch h
  | .arr _, .obj _, h => nomatch h
  | .obj _, .null, h => nomatch h
  | .obj _, .bool _, h => nomatch h
  | .obj _, .num _, h => nomatch h
  | .obj _, .str _, h => nomatch h
  | .obj _, .arr _, h => nomatch h

theorem Json.eqList_of_beq : ∀ {xs ys : List Json}, Json.beqList xs ys = true → xs = ys
  | [], [], _ => rfl
  | x :: xs, y :: ys, h => by
      simp only [Json.beqList, Bool.and_eq_true] at h
      exact congrArg₂ List.cons (Json.eq_of_beq h.1) (Json.eqList_of_beq h.2)
  | [], _ :: _, h => nomatch h
  | _ :: _, [], h => nomatch h

theorem Json.eqKVs_of_beq :
    ∀ {xs ys : List (String × Json)}, Json.beqKVs xs ys = true → xs = ys
  | [], [], _ => rfl
  | (k, v) :: xs, (k2, v2) :: ys, h => by
      simp only [Json.beqKVs, Bool.and_eq_true, beq_iff_eq] at h
      have h1 : k = k2 := h.1.1
      have h2 : v = v2 := Json.eq_of_beq h.1.2
      have h3 : xs = ys := Json.eqKVs_of_beq h.2
      rw [h1, h2, h3]
  | [], _ :: _, h => nomatch h
  | _ :: _, [], h => nomatch h

end

mutual

theorem Json.beq_refl : ∀ a : Json, Json.beq a a = true
  | .null => rfl
  | .bool a => by simp [Json.beq]
  | .num a => by simp [Json.beq]
  | .str a => by simp [Json.beq]
  | .arr xs => Json.beqList_refl xs
  | .obj a => Json.beqKVs_refl a

theorem Json.beqList_refl : ∀ xs : List Json, Json.beqList xs xs = true
  | [] => rfl
  | x :: xs => by
      simp only [Json.beqList, Bool.and_eq_true]
      exact ⟨Json.beq_refl x, Json.beqList_refl xs⟩

theorem Json.beqKVs_refl : ∀ xs : List (String × Json), Json.beqKVs xs xs = true
  | [] => rfl
  | (k, v) :: xs => by
      simp only [Json.beqKVs, Bool.and_eq_true, beq_self_eq_true, true_and]
      exact ⟨Json.beq_refl v, Json.beqKVs_refl xs⟩

end

instance : DecidableEq Json := fun a b =>
  if h : Json.beq a b = true then .isTrue (Json.eq_of_beq h)
  else .isFalse (fun e => h (e ▸ Json.beq_refl a))


instance : LawfulBEq Json where
  eq_of_beq := Json.eq_of_beq
  rfl := Json.beq_refl _

instance {ε α : Type} [DecidableEq ε] [DecidableEq α] : DecidableEq (Except ε α) :=
  fun x y =>
    match x, y with
    | .error e, .error f =>
        if h : e = f then .isTrue (h ▸ rfl)
        else .isFalse (fun c => h (Except.error.inj c))
    | .ok a, .ok b =>
        if h : a = b then .isTrue (h ▸ rfl)
        else .isFalse (fun c => h (Except.ok.inj c))
    | .error _, .ok _ => .isFalse (fun c => Except.noConfusion c)
    | .ok _, .error _ => .isFalse (fun c => Except.noConfusion c)

/-! ### Evaluation machinery -/


theorem exceptOkBind {α β : Type} (a : α) (f : α → Except PyErr β) :
    (Except.ok a >>= f : Except PyErr β) = f a := rfl

theorem exceptErrBind {α β : Type} (e : PyErr) (f : α → Except PyErr β) :
    (Except.error e >>= f : Except PyErr β) = .error e := rfl

theorem exceptPure {α : Type} (a : α) : (pure a : Except PyErr α) = Except.ok a := rfl

/-- Symbolic evaluation of `calculate_edge_similarity` from its four
component values. -/
theorem edgeSimEval (pe ge : Json) (c1 c2 c3 c4 : ℚ)
    (h1 : edgeObjectsScore pe ge = .ok c1)
    (h2 : edgeFunctionalScore pe ge = .ok c2)
    (h3 : edgeSpatialScore pe ge = .ok c3)
    (h4 : edgeTouchingScore pe ge = .ok c4) :
    calculate_edge_similarity pe ge = .ok ((c1 + c2 + c3 + c4) / 4) := by
  rw [calculate_edge_similarity, h1, exceptOkBind, h2, exceptOkBind, h3, exceptOkBind,
    h4, exceptOkBind, exceptPure]

/-- Symbolic evaluation of `calculate_graph_similarity` from the looked
up fields, the node sets, and the edges-component value. -/
theorem graphSimEval (p g : Json)
    (hpn : p ≠ Json.null) (hgn : g ≠ Json.null)
    (tp tg ap ag fp fg np ng ep eg : Json) (ps gs : List Json) (c5 : ℚ)
    (h1 : dictGet p "task_instruction" = .ok tp)
    (h2 : dictGet g "task_instruction" = .ok tg)
    (h3 : dictGet p "action_type" = .ok ap)
    (h4 : dictGet g "action_type" = .ok ag)
    (h5 : dictGet p "function_type" = .ok fp)
    (h6 : dictGet g "function_type" = .ok fg)
    (h7 : dictGetD p "nodes" (.arr []) = .ok np)
    (h8 : dictGetD g "nodes" (.arr []) = .ok ng)
    (h9 : pySet np = .ok ps)
    (h10 : pySet ng = .ok gs)
    (h11 : dictGetD p "edges" (.arr []) = .ok ep)
    (h12 : dictGetD g "edges" (.arr []) = .ok eg)
    (h13 : edgesComponent ep eg = .ok c5) :
    calculate_graph_similarity p g =
      .ok (((if pyEq tp tg then 1 else 0) + (if pyEq ap ag then 1 else 0)
        + (if pyEq fp fg then 1 else 0)
        + (if !gs.isEmpty then jaccardQ ps gs else 0) + c5) / 5) := by
  have hcond : ¬((p == Json.null || g == Json.null) = true) := by
    simp [hpn, hgn]
  rw [calculate_graph_similarity, if_neg hcond, h1, exceptOkBind, h2, exceptOkBind,
    h3, exceptOkBind, h4, exceptOkBind, h5, exceptOkBind, h6, exceptOkBind,
    h7, exceptOkBind, h9, exceptOkBind, h8, exceptOkBind, h10, exceptOkBind,
    h11, exceptOkBind, h12, exceptOkBind, h13, exceptOkBind]
  simp only [exceptOkBind, exceptPure]

/-- Symbolic evaluation of `edgesComponent` on two honest `arr` lists. -/
theorem edgesComponentEvalArr (pl gl : List Json) (hgl : gl ≠ []) (s : ℚ)
    (hs : edgeScoreSum pl gl = .ok s) :
    edgesComponent (.arr pl) (.arr gl) =
      .ok (if pl.length > gl.length then
        max 0 (s / (gl.length : ℚ) - ((pl.length : ℚ) - (gl.length : ℚ)) * (1 / 10))
      else s / (gl.length : ℚ)) := by
  have htr : (Json.arr gl).truthy = true := by
    cases gl with
    | nil => exact absurd rfl hgl
    | cons a t => rfl
  rw [edgesComponent, htr]
  simp only [Bool.not_true, Bool.false_eq_true, if_false, pyIter, exceptOkBind, hs]
  split
  · simp only [exceptOkBind, exceptPure]
  · simp only [exceptOkBind, exceptPure]

/-- Symbolic evaluation of `edgeSpatialScore` from the looked-up values
and computed sets. -/
theorem edgeSpatialEval (pe ge sp sg : Json) (ps gs : List Json)
    (h1 : dictGetD pe "spatial_relations" (.arr []) = .ok sp)
    (h2 : pySet sp = .ok ps)
    (h3 : dictGetD ge "spatial_relations" (.arr []) = .ok sg)
    (h4 : pySet sg = .ok gs) :
    edgeSpatialScore pe ge = .ok (if !gs.isEmpty then jaccardQ ps gs else 0) := by
  rw [edgeSpatialScore, h1, exceptOkBind, h2, exceptOkBind, h3, exceptOkBind,
    h4, exceptOkBind, exceptPure]


/-! ### Inversion and bounds lemmas -/

theorem bindOkInv {α β : Type} {x : Except PyErr α} {f : α → Except PyErr β} {b : β}
    (h : (x >>= f) = .ok b) : ∃ a, x = .ok a ∧ f a = .ok b := by
  cases x with
  | error e => exact absurd h (by simp [exceptErrBind])
  | ok a => exact ⟨a, rfl, h⟩

theorem iteZeroOne {c : Prop} [Decidable c] : (0 : ℚ) ≤ (if c then (1 : ℚ) else 0) ∧
    (if c then (1 : ℚ) else 0) ≤ 1 := by
  split <;> norm_num

theorem interCount_le_unionCount (a b : List Json) : interCount a b ≤ unionCount a b := by
  calc interCount a b ≤ a.length := List.length_filter_le _ _
  _ ≤ unionCount a b := by simp [unionCount]

theorem jaccardQ_bounds (a b : List Json) : 0 ≤ jaccardQ a b ∧ jaccardQ a b ≤ 1 := by
  rw [jaccardQ]
  split
  · rename_i h
    constructor
    · positivity
    · rw [div_le_one (by exact_mod_cast h)]
      exact_mod_cast interCount_le_unionCount a b
  · norm_num

theorem edgeObjectsScore_bounds {pe ge : Json} {q : ℚ}
    (h : edgeObjectsScore pe ge = .ok q) : 0 ≤ q ∧ q ≤ 1 := by
  rw [edgeObjectsScore] at h
  obtain ⟨a1, _, h⟩ := bindOkInv h
  obtain ⟨a2, _, h⟩ := bindOkInv h
  obtain ⟨a3, _, h⟩ := bindOkInv h
  obtain ⟨a4, _, h⟩ := bindOkInv h
  obtain ⟨a5, _, h⟩ := bindOkInv h
  obtain ⟨a6, _, h⟩ := bindOkInv h
  rw [exceptPure] at h
  obtain rfl : _ = q := Except.ok.inj h
  exact iteZeroOne

theorem edgeFunctionalScore_bounds {pe ge : Json} {q : ℚ}
    (h : edgeFunctionalScore pe ge = .ok q) : 0 ≤ q ∧ q ≤ 1 := by
  rw [edgeFunctionalScore] at h
  obtain ⟨a1, _, h⟩ := bindOkInv h
  obtain ⟨a2, _, h⟩ := bindOkInv h
  rw [exceptPure] at h
  obtain rfl : _ = q := Except.ok.inj h
  exact iteZeroOne

theorem edgeSpatialScore_bounds {pe ge : Json} {q : ℚ}
    (h : edgeSpatialScore pe ge = .ok q) : 0 ≤ q ∧ q ≤ 1 := by
  rw [edgeSpatialScore] at h
  obtain ⟨a1, _, h⟩ := bindOkInv h
  obtain ⟨a2, _, h⟩ := bindOkInv h
  obtain ⟨a3, _, h⟩ := bindOkInv h
  obtain ⟨a4, _, h⟩ := bindOkInv h
  rw [exceptPure] at h
  obtain rfl : _ = q := Except.ok.inj h
  split
  · exact jaccardQ_bounds _ _
  · norm_num

theorem edgeTouchingScore_bounds {pe ge : Json} {q : ℚ}
    (h : edgeTouchingScore pe ge = .ok q) : 0 ≤ q ∧ q ≤ 1 := by
  rw [edgeTouchingScore] at h
  obtain ⟨a1, _, h⟩ := bindOkInv h
  obtain ⟨a2, _, h⟩ := bindOkInv h
  rw [exceptPure] at h
  obtain rfl : _ = q := Except.ok.inj h
  exact iteZeroOne

theorem edge_similarity_bounds {pe ge : Json} {q : ℚ}
    (h : calculate_edge_similarity pe ge = .ok q) : 0 ≤ q ∧ q ≤ 1 := by
  rw [calculate_edge_similarity] at h
  obtain ⟨c1, h1, h⟩ := bindOkInv h
  obtain ⟨c2, h2, h⟩ := bindOkInv h
  obtain ⟨c3, h3, h⟩ := bindOkInv h
  obtain ⟨c4, h4, h⟩ := bindOkInv h
  rw [exceptPure] at h
  obtain rfl : _ = q := Except.ok.inj h
  obtain ⟨b1l, b1r⟩ := edgeObjectsScore_bounds h1
  obtain ⟨b2l, b2r⟩ := edgeFunctionalScore_bounds h2
  obtain ⟨b3l, b3r⟩ := edgeSpatialScore_bounds h3
  obtain ⟨b4l, b4r⟩ := edgeTouchingScore_bounds h4
  constructor <;> [positivity; linarith]

theorem bestMatchAux_bounds {pl : List Json} {g : Json} {acc m : ℚ}
    (hacc0 : 0 ≤ acc) (hacc1 : acc ≤ 1)
    (h : bestMatchAux pl g acc = .ok m) : 0 ≤ m ∧ m ≤ 1 := by
  induction pl generalizing acc with
  | nil =>
      rw [bestMatchAux] at h
      obtain rfl : acc = m := Except.ok.inj h
      exact ⟨hacc0, hacc1⟩
  | cons p ps ih =>
      rw [bestMatchAux] at h
      obtain ⟨s, hs, h⟩ := bindOkInv h
      obtain ⟨hs0, hs1⟩ := edge_similarity_bounds hs
      exact ih (le_trans hacc0 (le_max_left acc s)) (max_le hacc1 hs1) h

theorem bestMatch_bounds {pl : List Json} {g : Json} {m : ℚ}
    (h : bestMatch pl g = .ok m) : 0 ≤ m ∧ m ≤ 1 :=
  bestMatchAux_bounds le_rfl zero_le_one h

theorem edgeScoreSum_bounds {pl gl : List Json} {s : ℚ}
    (h : edgeScoreSum pl gl = .ok s) : 0 ≤ s ∧ s ≤ (gl.length : ℚ) := by
  induction gl generalizing s with
  | nil =>
      rw [edgeScoreSum] at h
      obtain rfl : (0 : ℚ) = s := Except.ok.inj h
      norm_num
  | cons g gs ih =>
      rw [edgeScoreSum] at h
      obtain ⟨m, hm, h⟩ := bindOkInv h
      obtain ⟨rest, hrest, h⟩ := bindOkInv h
      rw [exceptPure] at h
      obtain rfl : m + rest = s := Except.ok.inj h
      obtain ⟨hm0, hm1⟩ := bestMatch_bounds hm
      obtain ⟨hr0, hr1⟩ := ih hrest
      constructor
      · linarith
      · simp only [List.length_cons]
        push_cast
        linarith

theorem truthy_iter_ne_nil {v : Json} {l : List Json}
    (ht : v.truthy = true) (h : pyIter v = .ok l) : l ≠ [] := by
  cases v with
  | arr xs =>
      obtain rfl : xs = l := Except.ok.inj h
      simpa [Json.truthy, List.isEmpty_iff] using ht
  | str s =>
      obtain rfl : _ = l := Except.ok.inj h
      simp only [Json.truthy, Bool.not_eq_true'] at ht
      simp only [ne_eq, List.map_eq_nil_iff]
      intro hd
      cases s with
      | mk data =>
          subst hd
          simp [String.isEmpty] at ht
  | obj kvs =>
      obtain rfl : _ = l := Except.ok.inj h
      simp only [Json.truthy, Bool.not_eq_true'] at ht
      simp only [ne_eq, List.map_eq_nil_iff]
      intro hd
      subst hd
      simp at ht
  | null => exact absurd h (by simp [pyIter])
  | bool b => exact absurd h (by simp [pyIter])
  | num n => exact absurd h (by simp [pyIter])

theorem edgesComponent_bounds {ep eg : Json} {q : ℚ}
    (h : edgesComponent ep eg = .ok q) : 0 ≤ q ∧ q ≤ 1 := by
  rw [edgesComponent] at h
  by_cases ht : eg.truthy = true
  · rw [ht] at h
    simp only [Bool.not_true, Bool.false_eq_true, if_false, exceptPure, exceptOkBind] at h
    obtain ⟨gl, hgl, h⟩ := bindOkInv h
    obtain ⟨pl, hpl, h⟩ := bindOkInv h
    obtain ⟨s, hs, h⟩ := bindOkInv h
    have hglne : gl ≠ [] := truthy_iter_ne_nil ht hgl
    have hn : (0 : ℚ) < (gl.length : ℚ) := by
      have : 0 < gl.length := List.length_pos.mpr hglne
      exact_mod_cast this
    obtain ⟨hs0, hs1⟩ := edgeScoreSum_bounds hs
    have havg0 : 0 ≤ s / (gl.length : ℚ) := by positivity
    have havg1 : s / (gl.length : ℚ) ≤ 1 := by
      rw [div_le_one hn]; linarith
    by_cases hlen : pl.length > gl.length
    · rw [if_pos hlen] at h
      obtain rfl : _ = q := Except.ok.inj h
      have hcast : (gl.length : ℚ) ≤ (pl.length : ℚ) := by
        exact_mod_cast le_of_lt hlen
      refine ⟨le_max_left 0 _, max_le (by norm_num) ?_⟩
      nlinarith
    · rw [if_neg hlen] at h
      obtain rfl : _ = q := Except.ok.inj h
      exact ⟨havg0, havg1⟩
  · rw [Bool.not_eq_true] at ht
    rw [ht] at h
    simp only [Bool.not_false, if_true] at h
    rw [exceptPure] at h
    obtain rfl : (0 : ℚ) = q := Except.ok.inj h
    norm_num

theorem graph_similarity_bounds {p g : Json} {q : ℚ}
    (h : calculate_graph_similarity p g = .ok q) : 0 ≤ q ∧ q ≤ 1 := by
  rw [calculate_graph_similarity] at h
  split at h
  · rw [exceptPure] at h
    obtain rfl : (0 : ℚ) = q := Except.ok.inj h
    norm_num
  · simp only [exceptPure, exceptOkBind] at h
    obtain ⟨tp, _, h⟩ := bindOkInv h
    obtain ⟨tg, _, h⟩ := bindOkInv h
    obtain ⟨ap, _, h⟩ := bindOkInv h
    obtain ⟨ag, _, h⟩ := bindOkInv h
    obtain ⟨fp, _, h⟩ := bindOkInv h
    obtain ⟨fg, _, h⟩ := bindOkInv h
    obtain ⟨np, _, h⟩ := bindOkInv h
    obtain ⟨ps, _, h⟩ := bindOkInv h
    obtain ⟨ng, _, h⟩ := bindOkInv h
    obtain ⟨gs, _, h⟩ := bindOkInv h
    obtain ⟨ep, _, h⟩ := bindOkInv h
    obtain ⟨eg2, _, h⟩ := bindOkInv h
    obtain ⟨c5, hc5, h⟩ := bindOkInv h
    obtain rfl : _ = q := Except.ok.inj h
    have b1 := iteZeroOne (c := pyEq tp tg = true)
    have b2 := iteZeroOne (c := pyEq ap ag = true)
    have b3 := iteZeroOne (c := pyEq fp fg = true)
    have b4 : (0 : ℚ) ≤ (if (!gs.isEmpty) = true then jaccardQ ps gs else 0) ∧
        (if (!gs.isEmpty) = true then jaccardQ ps gs else 0) ≤ 1 := by
      split
      · exact jaccardQ_bounds _ _
      · norm_num
    have b5 := edgesComponent_bounds hc5
    obtain ⟨x1, y1⟩ := b1; obtain ⟨x2, y2⟩ := b2; obtain ⟨x3, y3⟩ := b3
    obtain ⟨x4, y4⟩ := b4; obtain ⟨x5, y5⟩ := b5
    constructor
    · positivity
    · linarith

/-! ### Bucket and accuracy lemmas -/

theorem dapoBucket_mem (s : ℚ) : dapoBucket s = -(5 / 10) ∨ dapoBucket s = 0 ∨
    dapoBucket s = 2 / 10 ∨ dapoBucket s = 5 / 10 ∨ dapoBucket s = 8 / 10 ∨
    dapoBucket s = 1 := by
  rw [dapoBucket]
  split_ifs <;> tauto

theorem dapoBucket_mono {a b : ℚ} (hab : a ≤ b) : dapoBucket a ≤ dapoBucket b := by
  rw [dapoBucket, dapoBucket]
  split_ifs <;> linarith

theorem dapoBucket_values (q : ℚ) :
    (98 / 100 ≤ q → dapoBucket q = 1) ∧
    (85 / 100 ≤ q ∧ q < 98 / 100 → dapoBucket q = 8 / 10) ∧
    (7 / 10 ≤ q ∧ q < 85 / 100 → dapoBucket q = 5 / 10) ∧
    (5 / 10 ≤ q ∧ q < 7 / 10 → dapoBucket q = 2 / 10) ∧
    (3 / 10 ≤ q ∧ q < 5 / 10 → dapoBucket q = 0) ∧
    (q < 3 / 10 → dapoBucket q = -(5 / 10)) := by
  refine ⟨fun h => ?_, fun h => ?_, fun h => ?_, fun h => ?_, fun h => ?_, fun h => ?_⟩ <;>
    [skip; obtain ⟨h1, h2⟩ := h; obtain ⟨h1, h2⟩ := h; obtain ⟨h1, h2⟩ := h;
     obtain ⟨h1, h2⟩ := h; skip] <;>
    rw [dapoBucket] <;> split_ifs <;> first | rfl | linarith

theorem accuracy_eq_bucket {resp gt : String} {pj gtj : Json} {q : ℚ}
    (hext : extract_answer_json resp = some pj)
    (hgt : jsonLoads (pyStrip gt.data) = some gtj)
    (hfmt : format_reward resp = .ok 1)
    (hsim : calculate_graph_similarity pj gtj = .ok q) :
    accuracy_reward resp gt = .ok (dapoBucket q) := by
  simp only [accuracy_reward, hgt, hext, hfmt]
  rw [if_neg one_ne_zero, hsim]

theorem accuracy_gate {resp gt : String} (hfmt : format_reward resp = .ok 0) :
    ∃ r, accuracy_reward resp gt = .ok r ∧ r ≤ 0 := by
  rw [accuracy_reward]
  cases hgt : jsonLoads (pyStrip gt.data) with
  | none => exact ⟨-(5 / 10), rfl, by norm_num⟩
  | some gtj =>
      cases hext : extract_answer_json resp with
      | none => exact ⟨-(5 / 10), rfl, by norm_num⟩
      | some pj =>
          rw [hfmt]
          exact ⟨0, by simp, le_refl 0⟩

theorem accuracy_six {resp gt : String} {r : ℚ} (h : accuracy_reward resp gt = .ok r) :
    r = -(5 / 10) ∨ r = 0 ∨ r = 2 / 10 ∨ r = 5 / 10 ∨ r = 8 / 10 ∨ r = 1 := by
  rw [accuracy_reward] at h
  split at h
  · left; exact (Except.ok.inj h).symm
  · split at h
    · left; exact (Except.ok.inj h).symm
    · split at h
      · exact absurd h (by simp)
      · split at h
        · right; left; exact (Except.ok.inj h).symm
        · split at h
          · exact absurd h (by simp)
          · obtain rfl : _ = r := Except.ok.inj h
            exact dapoBucket_mem _

/-! ### Concrete evaluations on the reference fixtures -/

theorem nodesSetEval :
    pySet (.arr [.str "electric outlet", .str "toaster"]) =
      .ok [.str "electric outlet", .str "toaster"] := by decide

theorem edgeSimGtGt : calculate_edge_similarity gtEdge gtEdge = .ok 1 := by
  have h3 : edgeSpatialScore gtEdge gtEdge = .ok 1 := by
    have he := edgeSpatialEval gtEdge gtEdge
      (.arr [.str "higher_than", .str "right_of", .str "in_front_of", .str "close"])
      (.arr [.str "higher_than", .str "right_of", .str "in_front_of", .str "close"])
      [.str "higher_than", .str "right_of", .str "in_front_of", .str "close"]
      [.str "higher_than", .str "right_of", .str "in_front_of", .str "close"]
      rfl (by decide) rfl (by decide)
    rw [he]
    have hi : interCount
        [Json.str "higher_than", .str "right_of", .str "in_front_of", .str "close"]
        [Json.str "higher_than", .str "right_of", .str "in_front_of", .str "close"] = 4 := by
      decide
    have hu : unionCount
        [Json.str "higher_than", .str "right_of", .str "in_front_of", .str "close"]
        [Json.str "higher_than", .str "right_of", .str "in_front_of", .str "close"] = 4 := by
      decide
    rw [jaccardQ, hi, hu]
    norm_num
  have he := edgeSimEval gtEdge gtEdge 1 1 1 1 (by decide) (by decide) h3 (by decide)
  rw [he]; norm_num

theorem edgesCompGtGt : edgesComponent (.arr [gtEdge]) (.arr [gtEdge]) = .ok 1 := by
  have hsum : edgeScoreSum [gtEdge] [gtEdge] = .ok (max 0 1 + 0) := by
    rw [edgeScoreSum, bestMatch, bestMatchAux, edgeSimGtGt, exceptOkBind, bestMatchAux,
      exceptOkBind, edgeScoreSum, exceptOkBind, exceptPure]
  rw [edgesComponentEvalArr [gtEdge] [gtEdge] (by simp) _ hsum]
  norm_num

theorem simGood : calculate_graph_similarity gtJ gtJ = .ok 1 := by
  have hg := graphSimEval gtJ gtJ (by decide) (by decide)
    (.str "Power on the toaster.") (.str "Power on the toaster.")
    (.str "insert") (.str "insert")
    (.str "power_supply") (.str "power_supply")
    (.arr [.str "electric outlet", .str "toaster"]) (.arr [.str "electric outlet", .str "toaster"])
    (.arr [gtEdge]) (.arr [gtEdge])
    [.str "electric outlet", .str "toaster"] [.str "electric outlet", .str "toaster"] 1
    rfl rfl rfl rfl rfl rfl rfl rfl nodesSetEval nodesSetEval rfl rfl edgesCompGtGt
  rw [hg]
  have hi : interCount [Json.str "electric outlet", .str "toaster"]
      [Json.str "electric outlet", .str "toaster"] = 2 := by decide
  have hu : unionCount [Json.str "electric outlet", .str "toaster"]
      [Json.str "electric outlet", .str "toaster"] = 2 := by decide
  simp only [jaccardQ, hi, hu,
    show pyEq (Json.str "Power on the toaster.") (.str "Power on the toaster.") = true from by decide,
    show pyEq (Json.str "insert") (.str "insert") = true from by decide,
    show pyEq (Json.str "power_supply") (.str "power_supply") = true from by decide, if_true]
  norm_num

theorem simPress : calculate_graph_similarity pressJ gtJ = .ok (4 / 5) := by
  have hg := graphSimEval pressJ gtJ (by decide) (by decide)
    (.str "Power on the toaster.") (.str "Power on the toaster.")
    (.str "press") (.str "insert")
    (.str "power_supply") (.str "power_supply")
    (.arr [.str "electric outlet", .str "toaster"]) (.arr [.str "electric outlet", .str "toaster"])
    (.arr [gtEdge]) (.arr [gtEdge])
    [.str "electric outlet", .str "toaster"] [.str "electric outlet", .str "toaster"] 1
    rfl rfl rfl rfl rfl rfl rfl rfl nodesSetEval nodesSetEval rfl rfl edgesCompGtGt
  rw [hg]
  have hi : interCount [Json.str "electric outlet", .str "toaster"]
      [Json.str "electric outlet", .str "toaster"] = 2 := by decide
  have hu : unionCount [Json.str "electric outlet", .str "toaster"]
      [Json.str "electric outlet", .str "toaster"] = 2 := by decide
  simp only [jaccardQ, hi, hu,
    show pyEq (Json.str "Power on the toaster.") (.str "Power on the toaster.") = true from by decide,
    show pyEq (Json.str "press") (.str "insert") = false from by decide,
    show pyEq (Json.str "power_supply") (.str "power_supply") = true from by decide,
    if_true, Bool.false_eq_true, if_false]
  norm_num

set_option maxRecDepth 400000 in
theorem extGood : extract_answer_json rGood = some gtJ := by decide

set_option maxRecDepth 400000 in
theorem extPress : extract_answer_json rPress = some pressJ := by decide

set_option maxRecDepth 400000 in
theorem gtParses : jsonLoads (pyStrip gtS.data) = some gtJ := by decide

set_option maxRecDepth 400000 in
theorem fmtGood : format_reward rGood = .ok 1 := by decide

set_option maxRecDepth 400000 in
theorem fmtPress : format_reward rPress = .ok 1 := by decide

theorem fmtNo : format_reward rNo = .ok 0 := by decide

theorem accGood : accuracy_reward rGood gtS = .ok 1 := by
  have h := accuracy_eq_bucket extGood gtParses fmtGood simGood
  rw [h]
  rw [show dapoBucket 1 = 1 from by rw [dapoBucket]; norm_num]

theorem accPress : accuracy_reward rPress gtS = .ok (5 / 10) := by
  have h := accuracy_eq_bucket extPress gtParses fmtPress simPress
  rw [h]
  rw [show dapoBucket (4 / 5) = 5 / 10 from by rw [dapoBucket]; norm_num]

theorem accNo : accuracy_reward rNo gtS = .ok (-(5 / 10)) := by
  rw [accuracy_reward]
  simp only [show extract_answer_json rNo = none from by decide, gtParses]

/-! ### Lemmas for the edge-count penalty claim -/

theorem bestMatchAux_append (pl : List Json) (e g : Json) (acc : ℚ) :
    bestMatchAux (pl ++ [e]) g acc =
      match bestMatchAux pl g acc with
      | .error er => .error er
      | .ok m =>
          match calculate_edge_similarity e g with
          | .error er => .error er
          | .ok s => .ok (max m s) := by
  induction pl generalizing acc with
  | nil =>
      rw [List.nil_append, bestMatchAux, bestMatchAux]
      cases hs : calculate_edge_similarity e g with
      | error er => simp only [hs, exceptErrBind]
      | ok s => simp only [hs, exceptOkBind, bestMatchAux]
  | cons p ps ih =>
      rw [List.cons_append, bestMatchAux, bestMatchAux]
      cases hp : calculate_edge_similarity p g with
      | error er => simp only [hp, exceptErrBind]
      | ok s => simp only [hp, exceptOkBind]; exact ih _

theorem bestMatch_append_le {pl : List Json} {e g : Json} {m s : ℚ}
    (hm : bestMatch pl g = .ok m) (hs : calculate_edge_similarity e g = .ok s)
    (hle : s ≤ m) : bestMatch (pl ++ [e]) g = .ok m := by
  rw [bestMatch, bestMatchAux_append]
  rw [show bestMatchAux pl g 0 = .ok m from hm, hs]
  show Except.ok (max m s) = Except.ok m
  rw [max_eq_left hle]

theorem edgeScoreSum_append_noimprove {pl gl : List Json} {e : Json}
    (h : ∀ g ∈ gl, ∃ m s, bestMatch pl g = .ok m ∧
      calculate_edge_similarity e g = .ok s ∧ s ≤ m) :
    edgeScoreSum (pl ++ [e]) gl = edgeScoreSum pl gl := by
  induction gl with
  | nil => rfl
  | cons g gs ih =>
      obtain ⟨m, s, hm, hs, hle⟩ := h g (List.mem_cons_self g gs)
      rw [edgeScoreSum, edgeScoreSum, bestMatch_append_le hm hs hle, hm,
        ih (fun g2 hg2 => h g2 (List.mem_cons_of_mem _ hg2))]

theorem edgeScoreSum_exists_ok {pl gl : List Json}
    (h : ∀ g ∈ gl, ∃ m, bestMatch pl g = .ok m) :
    ∃ s, edgeScoreSum pl gl = .ok s := by
  induction gl with
  | nil => exact ⟨0, rfl⟩
  | cons g gs ih =>
      obtain ⟨m, hm⟩ := h g (List.mem_cons_self g gs)
      obtain ⟨s, hsum⟩ := ih (fun g2 hg2 => h g2 (List.mem_cons_of_mem _ hg2))
      refine ⟨m + s, ?_⟩
      rw [edgeScoreSum, hm, exceptOkBind, hsum, exceptOkBind, exceptPure]

theorem edgesComponent_append_le {pl gl : List Json} {e : Json} {a b : ℚ}
    (hne : gl ≠ []) (hlen : gl.length ≤ pl.length)
    (h : ∀ g ∈ gl, ∃ m s, bestMatch pl g = .ok m ∧
      calculate_edge_similarity e g = .ok s ∧ s ≤ m)
    (ha : edgesComponent (.arr pl) (.arr gl) = .ok a)
    (hb : edgesComponent (.arr (pl ++ [e])) (.arr gl) = .ok b) :
    b ≤ a := by
  obtain ⟨s, hsum⟩ := edgeScoreSum_exists_ok
    (fun g hg => (h g hg).elim (fun m hm => hm.elim (fun s2 hp => ⟨m, hp.1⟩)))
  have hsum2 : edgeScoreSum (pl ++ [e]) gl = .ok s := by
    rw [edgeScoreSum_append_noimprove h, hsum]
  rw [edgesComponentEvalArr pl gl hne s hsum] at ha
  rw [edgesComponentEvalArr (pl ++ [e]) gl hne s hsum2] at hb
  obtain ⟨hs0, hs1⟩ := edgeScoreSum_bounds hsum
  have hglpos : (0 : ℚ) < (gl.length : ℚ) := by
    have h2 : 0 < gl.length := List.length_pos.mpr hne
    exact_mod_cast h2
  have havg0 : 0 ≤ s / (gl.length : ℚ) := by positivity
  have hbguard : (pl ++ [e]).length > gl.length := by
    rw [List.length_append, List.length_singleton]
    omega
  rw [if_pos hbguard] at hb
  have hlencast : ((pl ++ [e]).length : ℚ) = (pl.length : ℚ) + 1 := by
    push_cast [List.length_append, List.length_singleton]
    ring
  obtain rfl : _ = b := Except.ok.inj hb
  by_cases hag : pl.length > gl.length
  · rw [if_pos hag] at ha
    obtain rfl : _ = a := Except.ok.inj ha
    apply max_le_max (le_refl (0 : ℚ))
    rw [hlencast]
    linarith
  · rw [if_neg hag] at ha
    obtain rfl : _ = a := Except.ok.inj ha
    have hd : 0 ≤ ((pl ++ [e]).length : ℚ) - (gl.length : ℚ) := by
      rw [hlencast]
      have : (gl.length : ℚ) ≤ (pl.length : ℚ) := by exact_mod_cast hlen
      linarith
    apply max_le havg0
    nlinarith

theorem simMismatchGt : calculate_edge_similarity mismatchEdge gtEdge = .ok 0 := by
  have h3 : edgeSpatialScore mismatchEdge gtEdge = .ok 0 := by
    have he := edgeSpatialEval mismatchEdge gtEdge
      (.arr [.str "far"])
      (.arr [.str "higher_than", .str "right_of", .str "in_front_of", .str "close"])
      [.str "far"]
      [.str "higher_than", .str "right_of", .str "in_front_of", .str "close"]
      rfl (by decide) rfl (by decide)
    rw [he]
    have hi : interCount [Json.str "far"]
        [Json.str "higher_than", .str "right_of", .str "in_front_of", .str "close"] = 0 := by
      decide
    have hu : unionCount [Json.str "far"]
        [Json.str "higher_than", .str "right_of", .str "in_front_of", .str "close"] = 5 := by
      decide
    rw [jaccardQ, hi, hu]
    norm_num
  have he := edgeSimEval mismatchEdge gtEdge 0 0 0 0 (by decide) (by decide) h3 (by decide)
  rw [he]; norm_num

theorem bmGtGt : bestMatch [gtEdge] gtEdge = .ok 1 := by
  rw [bestMatch, bestMatchAux, edgeSimGtGt, exceptOkBind, bestMatchAux]
  rw [max_eq_right (by norm_num : (0 : ℚ) ≤ 1)]

theorem c1Before : edgesComponent (.arr [mismatchEdge]) (.arr [gtEdge]) = .ok 0 := by
  have hsum : edgeScoreSum [mismatchEdge] [gtEdge] = .ok (max 0 0 + 0) := by
    rw [edgeScoreSum, bestMatch, bestMatchAux, simMismatchGt, exceptOkBind, bestMatchAux,
      exceptOkBind, edgeScoreSum, exceptOkBind, exceptPure]
  rw [edgesComponentEvalArr _ _ (by simp) _ hsum]
  norm_num

theorem c1After :
    edgesComponent (.arr ([mismatchEdge] ++ [gtEdge])) (.arr [gtEdge]) = .ok (9 / 10) := by
  have hsum : edgeScoreSum [mismatchEdge, gtEdge] [gtEdge] = .ok (max (max 0 0) 1 + 0) := by
    rw [edgeScoreSum, bestMatch, bestMatchAux, simMismatchGt, exceptOkBind, bestMatchAux,
      edgeSimGtGt, exceptOkBind, bestMatchAux, exceptOkBind, edgeScoreSum, exceptOkBind,
      exceptPure]
  rw [show [mismatchEdge] ++ [gtEdge] = [mismatchEdge, gtEdge] from rfl]
  rw [edgesComponentEvalArr _ _ (by simp) _ hsum]
  have hm : max (max (0 : ℚ) 0) 1 + 0 = 1 := by
    rw [max_self, max_eq_right (by norm_num : (0 : ℚ) ≤ 1), add_zero]
  rw [hm]
  have hcond : ([mismatchEdge, gtEdge].length > [gtEdge].length) := by simp
  rw [if_pos hcond]
  have : (1 : ℚ) / ([gtEdge].length : ℚ)
      - (([mismatchEdge, gtEdge].length : ℚ) - ([gtEdge].length : ℚ)) * (1 / 10) = 9 / 10 := by
    simp
    norm_num
  rw [this, max_eq_right (by norm_num : (0 : ℚ) ≤ 9 / 10)]

theorem c1AfterGood :
    edgesComponent (.arr ([gtEdge] ++ [mismatchEdge])) (.arr [gtEdge]) = .ok (9 / 10) := by
  have hsum : edgeScoreSum [gtEdge, mismatchEdge] [gtEdge] = .ok (max (max 0 1) 0 + 0) := by
    rw [edgeScoreSum, bestMatch, bestMatchAux, edgeSimGtGt, exceptOkBind, bestMatchAux,
      simMismatchGt, exceptOkBind, bestMatchAux, exceptOkBind, edgeScoreSum, exceptOkBind,
      exceptPure]
  rw [show [gtEdge] ++ [mismatchEdge] = [gtEdge, mismatchEdge] from rfl]
  rw [edgesComponentEvalArr _ _ (by simp) _ hsum]
  have hm : max (max (0 : ℚ) 1) 0 + 0 = 1 := by
    rw [max_eq_right (by norm_num : (0 : ℚ) ≤ 1), max_eq_left (by norm_num : (0 : ℚ) ≤ 1),
      add_zero]
  rw [hm]
  have hcond : ([gtEdge, mismatchEdge].length > [gtEdge].length) := by simp
  rw [if_pos hcond]
  have : (1 : ℚ) / ([gtEdge].length : ℚ)
      - (([gtEdge, mismatchEdge].length : ℚ) - ([gtEdge].length : ℚ)) * (1 / 10) = 9 / 10 := by
    simp
    norm_num
  rw [this, max_eq_right (by norm_num : (0 : ℚ) ≤ 9 / 10)]

/-! ### Lemmas for the answer-extractor claim -/

theorem afterLabel_decomp {cs s : List Char} (h : afterLabel cs = some s) :
    (∃ pre, cs = pre ++ s) ∧ ∃ r3, s = '{' :: r3 := by
  rw [afterLabel.eq_def] at h
  split at h
  · rename_i rest
    split at h
    · rename_i r2 hr2
      split at h
      · rename_i r3 hr3
        obtain rfl : '{' :: r3 = s := Option.some.inj h
        refine ⟨⟨'A' :: 'n' :: 's' :: 'w' :: 'e' :: 'r' ::
          (rest.takeWhile isPySpace ++ ':' :: r2.takeWhile isPySpace), ?_⟩, r3, rfl⟩
        have e1 : rest.takeWhile isPySpace ++ (':' :: r2) = rest := by
          rw [← hr2]
          exact List.takeWhile_append_dropWhile isPySpace rest
        have e2 : r2.takeWhile isPySpace ++ ('{' :: r3) = r2 := by
          rw [← hr3]
          exact List.takeWhile_append_dropWhile isPySpace r2
        have e3 : rest = (rest.takeWhile isPySpace ++ ':' :: r2.takeWhile isPySpace)
            ++ '{' :: r3 := by
          rw [List.append_assoc, List.cons_append, e2, e1]
        simp only [List.cons_append, List.cons.injEq, true_and]
        exact e3
      · exact absurd h (by simp)
    · exact absurd h (by simp)
  · exact absurd h (by simp)

theorem dropWhile_close_head {l : List Char} (h : '}' ∈ l) :
    ∃ t, l.dropWhile (fun c => c != '}') = '}' :: t := by
  induction l with
  | nil => exact absurd h (by simp)
  | cons c cs ih =>
      by_cases hc : c = '}'
      · subst hc
        exact ⟨cs, by rw [List.dropWhile_cons_of_neg (by simp)]⟩
      · have hmem : '}' ∈ cs := by
          rcases List.mem_cons.mp h with h1 | h1
          · exact absurd h1.symm hc
          · exact h1
        obtain ⟨t, ht⟩ := ih hmem
        refine ⟨t, ?_⟩
        rw [List.dropWhile_cons_of_pos (by simp [hc])]
        exact ht

theorem takeToLastClose_close {s : List Char} (h : '}' ∈ s) :
    ∃ t, takeToLastClose s = t ++ ['}'] := by
  obtain ⟨t, ht⟩ := dropWhile_close_head (l := s.reverse) (by simpa using h)
  exact ⟨t.reverse, by rw [takeToLastClose, ht, List.reverse_cons]⟩

theorem takeToLastClose_decomp (s : List Char) :
    ∃ post, s = takeToLastClose s ++ post ∧ ∀ c ∈ post, c ≠ '}' := by
  refine ⟨(s.reverse.takeWhile (fun c => c != '}')).reverse, ?_, ?_⟩
  · rw [takeToLastClose]
    conv_lhs => rw [← List.reverse_reverse s,
      ← List.takeWhile_append_dropWhile (fun c => c != '}') s.reverse]
    rw [List.reverse_append]
  · intro c hc
    have h2 := List.mem_takeWhile_imp (List.mem_reverse.mp hc)
    simpa using h2

theorem pyStrip_nop {cap : List Char} (h1 : ∃ t, cap = '{' :: t)
    (h2 : ∃ t, cap = t ++ ['}']) : pyStrip cap = cap := by
  obtain ⟨t1, rfl⟩ := h1
  obtain ⟨t2, he⟩ := h2
  rw [pyStrip, dropPySpace, List.dropWhile_cons_of_neg (by decide)]
  rw [he, List.reverse_append]
  simp only [List.reverse_cons, List.reverse_nil, List.nil_append, List.singleton_append]
  rw [List.dropWhile_cons_of_neg (by decide)]
  rw [List.reverse_cons, List.reverse_reverse]

theorem scanExtract_decomp {r cap : List Char} (h : scanExtract r = some cap) :
    pyStrip cap = cap ∧ (∃ t, cap = '{' :: t) ∧ (∃ t, cap = t ++ ['}']) ∧
    ∃ pre post, r = pre ++ cap ++ post ∧ ∀ c ∈ post, c ≠ '}' := by
  induction r with
  | nil => exact absurd h (by rw [scanExtract]; simp)
  | cons c cs ih =>
      rw [scanExtract] at h
      cases hl : afterLabel (c :: cs) with
      | none =>
          simp only [hl] at h
          obtain ⟨hstrip, hhead, hlast, pre, post, hdec, hpost⟩ := ih h
          exact ⟨hstrip, hhead, hlast, c :: pre, post, by rw [hdec]; rfl, hpost⟩
      | some s =>
          simp only [hl] at h
          by_cases hc : s.tail.contains '}' = true
          · rw [if_pos hc] at h
            obtain rfl : takeToLastClose s = cap := Option.some.inj h
            obtain ⟨⟨pre1, hpre1⟩, r3, hs⟩ := afterLabel_decomp hl
            have hmem : '}' ∈ s := by
              have h3 : '}' ∈ s.tail := by simpa using hc
              exact List.mem_of_mem_tail h3
            have hlast := takeToLastClose_close hmem
            obtain ⟨post, hdec, hpost⟩ := takeToLastClose_decomp s
            have hne : takeToLastClose s ≠ [] := by
              obtain ⟨t, ht⟩ := hlast
              rw [ht]
              simp
            have hhead : ∃ t, takeToLastClose s = '{' :: t := by
              obtain ⟨c0, t0, ht0⟩ := List.exists_cons_of_ne_nil hne
              have h5 : '{' :: r3 = c0 :: (t0 ++ post) := by
                rw [← hs, hdec, ht0, List.cons_append]
              have h6 : '{' = c0 := by injection h5
              exact ⟨t0, by rw [ht0, ← h6]⟩
            refine ⟨pyStrip_nop hhead hlast, hhead, hlast, pre1, post, ?_, hpost⟩
            conv_lhs => rw [hpre1, hdec]
            rw [List.append_assoc]
          · rw [if_neg hc] at h
            obtain ⟨hstrip, hhead, hlast, pre, post, hdec, hpost⟩ := ih h
            exact ⟨hstrip, hhead, hlast, c :: pre, post, by rw [hdec]; rfl, hpost⟩

set_option maxRecDepth 10000 in
theorem c3MultiEval : scanExtract c3Multi.data =
    some "\x7b\"a\": 1\x7d mid Answer: \x7b\"b\": 2\x7d".data := by decide

set_option maxRecDepth 10000 in
theorem c3NoCloseEval : scanExtract c3NoClose.data = none := by decide

set_option maxRecDepth 10000 in
theorem c3RespCode : answerJsonStr c3Resp = some "\x7b\x7d".data := by decide

set_option maxRecDepth 10000 in
theorem c3RespSpec : c3SpecCapture c3Resp.data = some "\x7b\x7d x".data := by decide

/-! ### Lemmas for the edge-objects claim -/

theorem allCongrB {α : Type} {l : List α} {f g : α → Bool}
    (h : ∀ a ∈ l, f a = g a) : l.all f = l.all g := by
  induction l with
  | nil => rfl
  | cons a t ih =>
      simp only [List.all_cons]
      rw [h a (List.mem_cons_self a t), ih (fun b hb => h b (List.mem_cons_of_mem _ hb))]

theorem dedupB_pair (x y : Json) : dedupB [x, y] = if y == x then [x] else [x, y] := by
  simp [dedupB, memB]

theorem memB_pair (w x y : Json) : memB w [x, y] = (x == w || y == w) := by
  simp [memB]

theorem setEqB_pair_swap_left (x y : Json) (z : List Json) :
    setEqB (dedupB [x, y]) z = setEqB (dedupB [y, x]) z := by
  rw [dedupB_pair, dedupB_pair]
  by_cases hxy : x = y
  · subst hxy
    simp
  · rw [if_neg (by simpa using (Ne.symm hxy)), if_neg (by simpa using hxy)]
    rw [setEqB, setEqB]
    have h1 : ([x, y].all (fun a => memB a z)) = ([y, x].all (fun a => memB a z)) := by
      simp only [List.all_cons, List.all_nil, Bool.and_true]
      exact Bool.and_comm _ _
    have h2 : (z.all fun a => memB a [x, y]) = (z.all fun a => memB a [y, x]) := by
      refine allCongrB (fun a _ => ?_)
      rw [memB_pair, memB_pair]
      exact Bool.or_comm _ _
    rw [h1, h2]

theorem setEqB_pair_swap_right (x y : Json) (z : List Json) :
    setEqB z (dedupB [x, y]) = setEqB z (dedupB [y, x]) := by
  rw [dedupB_pair, dedupB_pair]
  by_cases hxy : x = y
  · subst hxy
    simp
  · rw [if_neg (by simpa using (Ne.symm hxy)), if_neg (by simpa using hxy)]
    rw [setEqB, setEqB]
    have h1 : (z.all fun a => memB a [x, y]) = (z.all fun a => memB a [y, x]) := by
      refine allCongrB (fun a _ => ?_)
      rw [memB_pair, memB_pair]
      exact Bool.or_comm _ _
    have h2 : ([x, y].all (fun a => memB a z)) = ([y, x].all (fun a => memB a z)) := by
      simp only [List.all_cons, List.all_nil, Bool.and_true]
      exact Bool.and_comm _ _
    rw [h1, h2]

theorem edgeObjectsScore_swap_pred (o1 o2 fr sr it ge : Json) :
    edgeObjectsScore (mkEdgeJson o1 o2 fr sr it) ge =
      edgeObjectsScore (mkEdgeJson o2 o1 fr sr it) ge := by
  rw [edgeObjectsScore, edgeObjectsScore]
  simp only [show ∀ a b f s i, dictGet (mkEdgeJson a b f s i) "object1" = .ok a from
      fun _ _ _ _ _ => rfl,
    show ∀ a b f s i, dictGet (mkEdgeJson a b f s i) "object2" = .ok b from
      fun _ _ _ _ _ => rfl,
    exceptOkBind]
  rw [pyPairSet, pyPairSet]
  by_cases h1 : o1.hashable <;> by_cases h2 : o2.hashable
  · simp only [h1, h2, Bool.and_self, if_true, exceptOkBind]
    cases hg1 : dictGet ge "object1" with
    | error e => simp only [hg1, exceptErrBind]
    | ok g1 =>
        simp only [hg1, exceptOkBind]
        cases hg2 : dictGet ge "object2" with
        | error e => simp only [hg2, exceptErrBind]
        | ok g2 =>
            simp only [hg2, exceptOkBind]
            cases hps : pyPairSet g1 g2 with
            | error e => simp only [hps, exceptErrBind]
            | ok gs =>
                simp only [hps, exceptOkBind, exceptPure]
                rw [setEqB_pair_swap_left]
  · simp [h1, h2]
  · simp [h1, h2]
  · simp [h1, h2]

theorem edgeObjectsScore_swap_gt (pe g1 g2 fr sr it : Json) :
    edgeObjectsScore pe (mkEdgeJson g1 g2 fr sr it) =
      edgeObjectsScore pe (mkEdgeJson g2 g1 fr sr it) := by
  rw [edgeObjectsScore, edgeObjectsScore]
  cases hp1 : dictGet pe "object1" with
  | error e => simp only [hp1, exceptErrBind]
  | ok po1 =>
      simp only [hp1, exceptOkBind]
      cases hp2 : dictGet pe "object2" with
      | error e => simp only [hp2, exceptErrBind]
      | ok po2 =>
          simp only [hp2, exceptOkBind]
          cases hps : pyPairSet po1 po2 with
          | error e => simp only [hps, exceptErrBind]
          | ok ps =>
              simp only [hps, exceptOkBind]
              simp only [show ∀ a b f s i,
                  dictGet (mkEdgeJson a b f s i) "object1" = .ok a from fun _ _ _ _ _ => rfl,
                show ∀ a b f s i,
                  dictGet (mkEdgeJson a b f s i) "object2" = .ok b from fun _ _ _ _ _ => rfl,
                exceptOkBind]
              rw [pyPairSet, pyPairSet]
              by_cases h1 : g1.hashable <;> by_cases h2 : g2.hashable
              · simp only [h1, h2, Bool.and_self, if_true, exceptOkBind, exceptPure]
                rw [setEqB_pair_swap_right]
              · simp [h1, h2]
              · simp [h1, h2]
              · simp [h1, h2]

theorem edge_sim_swap_pred (o1 o2 fr sr it ge : Json) :
    calculate_edge_similarity (mkEdgeJson o1 o2 fr sr it) ge =
      calculate_edge_similarity (mkEdgeJson o2 o1 fr sr it) ge := by
  rw [calculate_edge_similarity, calculate_edge_similarity, edgeObjectsScore_swap_pred]
  rfl

theorem edge_sim_swap_gt (pe g1 g2 fr sr it : Json) :
    calculate_edge_similarity pe (mkEdgeJson g1 g2 fr sr it) =
      calculate_edge_similarity pe (mkEdgeJson g2 g1 fr sr it) := by
  rw [calculate_edge_similarity, calculate_edge_similarity, edgeObjectsScore_swap_gt]
  rfl

theorem memB_iff (w : Json) (l : List Json) : memB w l = true ↔ w ∈ l := by
  simp [memB]

theorem setEqB_iff (a b : List Json) :
    setEqB a b = true ↔ (∀ x ∈ a, x ∈ b) ∧ (∀ x ∈ b, x ∈ a) := by
  simp [setEqB, List.all_eq_true, memB_iff]

theorem dedupB_pair_mem (x y w : Json) : w ∈ dedupB [x, y] ↔ (w = x ∨ w = y) := by
  rw [dedupB_pair]
  split
  · rename_i h
    have hyx : y = x := by simpa using h
    subst hyx
    simp
  · simp

theorem pairSetEqIff (o1 o2 g1 g2 : String) :
    setEqB (dedupB [.str o1, .str o2]) (dedupB [.str g1, .str g2]) = true ↔
      ((o1 = g1 ∧ o2 = g2) ∨ (o1 = g2 ∧ o2 = g1)) := by
  rw [setEqB_iff]
  constructor
  · rintro ⟨hAB, hBA⟩
    have h1 : o1 = g1 ∨ o1 = g2 := by
      have hm := hAB (.str o1) (by rw [dedupB_pair_mem]; left; rfl)
      rw [dedupB_pair_mem] at hm
      rcases hm with hm | hm
      · exact Or.inl (Json.str.inj hm)
      · exact Or.inr (Json.str.inj hm)
    have h2 : o2 = g1 ∨ o2 = g2 := by
      have hm := hAB (.str o2) (by rw [dedupB_pair_mem]; right; rfl)
      rw [dedupB_pair_mem] at hm
      rcases hm with hm | hm
      · exact Or.inl (Json.str.inj hm)
      · exact Or.inr (Json.str.inj hm)
    have h3 : g1 = o1 ∨ g1 = o2 := by
      have hm := hBA (.str g1) (by rw [dedupB_pair_mem]; left; rfl)
      rw [dedupB_pair_mem] at hm
      rcases hm with hm | hm
      · exact Or.inl (Json.str.inj hm)
      · exact Or.inr (Json.str.inj hm)
    have h4 : g2 = o1 ∨ g2 = o2 := by
      have hm := hBA (.str g2) (by rw [dedupB_pair_mem]; right; rfl)
      rw [dedupB_pair_mem] at hm
      rcases hm with hm | hm
      · exact Or.inl (Json.str.inj hm)
      · exact Or.inr (Json.str.inj hm)
    rcases h1 with h1 | h1 <;> rcases h2 with h2 | h2
    · rcases h4 with h4 | h4
      · left
        refine ⟨h1, ?_⟩
        rw [h2, h4]
        exact h1.symm
      · exact Or.inl ⟨h1, h4.symm⟩
    · exact Or.inl ⟨h1, h2⟩
    · exact Or.inr ⟨h1, h2⟩
    · rcases h3 with h3 | h3
      · right
        refine ⟨h1, ?_⟩
        rw [h2, ← h1, ← h3]
      · exact Or.inr ⟨h1, h3.symm⟩
  · rintro (⟨rfl, rfl⟩ | ⟨rfl, rfl⟩)
    · exact ⟨fun x hx => hx, fun x hx => hx⟩
    · constructor <;> intro x hx <;> rw [dedupB_pair_mem] at hx ⊢ <;> tauto

theorem c8_objects (pe ge : Json) (o1 o2 g1 g2 : String)
    (h1 : dictGet pe "object1" = .ok (.str o1))
    (h2 : dictGet pe "object2" = .ok (.str o2))
    (h3 : dictGet ge "object1" = .ok (.str g1))
    (h4 : dictGet ge "object2" = .ok (.str g2)) :
    edgeObjectsScore pe ge =
      .ok (if (o1 = g1 ∧ o2 = g2) ∨ (o1 = g2 ∧ o2 = g1) then 1 else 0) := by
  rw [edgeObjectsScore, h1, exceptOkBind, h2, exceptOkBind]
  rw [show pyPairSet (.str o1) (.str o2) = .ok (dedupB [.str o1, .str o2]) from rfl,
    exceptOkBind, h3, exceptOkBind, h4, exceptOkBind]
  rw [show pyPairSet (.str g1) (.str g2) = .ok (dedupB [.str g1, .str g2]) from rfl,
    exceptOkBind, exceptPure]
  congr 1
  rw [if_congr (pairSetEqIff o1 o2 g1 g2) rfl rfl]

theorem spatialCloseEval (pe ge : Json)
    (hp : dictGetD pe "spatial_relations" (.arr []) = .ok (.arr [.str "close"]))
    (hg : dictGetD ge "spatial_relations" (.arr []) = .ok (.arr [.str "close"])) :
    edgeSpatialScore pe ge = .ok 1 := by
  have he := edgeSpatialEval pe ge (.arr [.str "close"]) (.arr [.str "close"])
    [.str "close"] [.str "close"] hp (by decide) hg (by decide)
  rw [he]
  have hi : interCount [Json.str "close"] [Json.str "close"] = 1 := by decide
  have hu : unionCount [Json.str "close"] [Json.str "close"] = 1 := by decide
  rw [jaccardQ, hi, hu]
  norm_num

theorem simSlashBase : calculate_edge_similarity slashEdge baseEdge = .ok (3 / 4) := by
  have h3 : edgeSpatialScore slashEdge baseEdge = .ok 1 := spatialCloseEval _ _ rfl rfl
  have he := edgeSimEval slashEdge baseEdge 0 1 1 1 (by decide) (by decide) h3 (by decide)
  rw [he]; norm_num

theorem simSlashSlash : calculate_edge_similarity slashEdge slashEdge = .ok 1 := by
  have h3 : edgeSpatialScore slashEdge slashEdge = .ok 1 := spatialCloseEval _ _ rfl rfl
  have he := edgeSimEval slashEdge slashEdge 1 1 1 1 (by decide) (by decide) h3 (by decide)
  rw [he]; norm_num

theorem overlong_at_expected (m b : Int) : soft_overlong_punishment (m - b) m b = 0 := by
  rw [soft_overlong_punishment]
  simp

theorem overlong_at_max {m b : Int} (hb : 0 < b) : soft_overlong_punishment m m b = -1 := by
  rw [soft_overlong_punishment]
  rw [if_neg (by omega), if_pos le_rfl]
  have hbq : (b : ℚ) ≠ 0 := by exact_mod_cast hb.ne.symm
  field_simp

theorem overlong80 : soft_overlong_punishment 80 100 20 = 0 := by
  rw [soft_overlong_punishment]
  norm_num

theorem overlong90 : soft_overlong_punishment 90 100 20 = -(5 / 10) := by
  rw [soft_overlong_punishment]
  norm_num

theorem overlong150 : soft_overlong_punishment 150 100 20 = -1 := by
  rw [soft_overlong_punishment]
  norm_num

set_option maxRecDepth 400000 in
theorem c9BadEval : compute_score [⟨badHashResp, gtS⟩] 100 20 1 (1 / 5) =
    .error (.typeError "unhashable type") := by decide

set_option maxRecDepth 400000 in
theorem c10FmtEval : format_reward c10Resp = .ok 1 := by decide

set_option maxRecDepth 400000 in
theorem c10ExtEval : extract_answer_json c10Resp = some (Json.obj [
  ("task_instruction", .str "turn on the lamp"),
  ("nodes", .arr [.num 3, .str "lamp"]),
  ("edges", .arr [.obj [
    ("functional_relationship", .str "control"),
    ("object1", .num 7),
    ("object2", .bool true),
    ("spatial_relations", .arr [.str "close"]),
    ("is_touching", .bool true)]]),
  ("action_type", .str "press"),
  ("function_type", .num 5)]) := by decide

/-! ### The claims -/

/-- Claim C1, counterexample: with one predicted edge and one ground-truth
edge (counts equal), appending a predicted edge that exactly matches the
ground-truth edge raises the edges-similarity component from 0 to 0.9, so
appending a predicted edge beyond the ground-truth count can increase the
component. -/
theorem claim_C1_counterexample :
    ([mismatchEdge] : List Json).length ≥ ([gtEdge] : List Json).length ∧
    edgesComponent (.arr [mismatchEdge]) (.arr [gtEdge]) = .ok 0 ∧
    edgesComponent (.arr ([mismatchEdge] ++ [gtEdge])) (.arr [gtEdge]) = .ok (9 / 10) ∧
    ¬((9 : ℚ) / 10 ≤ 0) :=
  ⟨by simp, c1Before, c1After, by norm_num⟩

/-- Claim C1 as amended: for every ground-truth edge list and predicted
edge list with at least as many edges, appending one more predicted edge
whose edge similarity to each ground-truth edge does not exceed that
edge's existing best match never increases the edges-similarity component
of GraphSimilarity. -/
theorem claim_C1 (pl gl : List Json) (e : Json) (a b : ℚ)
    (hne : gl ≠ []) (hlen : gl.length ≤ pl.length)
    (h : ∀ g ∈ gl, ∃ m s, bestMatch pl g = .ok m ∧
      calculate_edge_similarity e g = .ok s ∧ s ≤ m)
    (ha : edgesComponent (.arr pl) (.arr gl) = .ok a)
    (hb : edgesComponent (.arr (pl ++ [e])) (.arr gl) = .ok b) :
    b ≤ a :=
  edgesComponent_append_le hne hlen h ha hb

theorem claim_C1_witness : (9 : ℚ) / 10 ≤ 1 :=
  claim_C1 [gtEdge] [gtEdge] mismatchEdge 1 (9 / 10) (by simp) (by simp)
    (fun g hg => by
      rw [List.mem_singleton] at hg
      subst hg
      exact ⟨1, 0, bmGtGt, simMismatchGt, by norm_num⟩)
    edgesCompGtGt c1AfterGood

/-- Claim C2: whenever the ground-truth string parses, extraction
succeeds, and the schema validator returns 1.0, the accuracy score is the
step function of graph similarity; the step function is monotone
non-decreasing and realizes exactly the lower-inclusive buckets
0.98/0.85/0.70/0.50/0.30 with values 1, 0.8, 0.5, 0.2, 0, -0.5. -/
theorem claim_C2 :
    (∀ (resp gt : String) (pj gtj : Json) (q : ℚ),
      extract_answer_json resp = some pj →
      jsonLoads (pyStrip gt.data) = some gtj →
      format_reward resp = .ok 1 →
      calculate_graph_similarity pj gtj = .ok q →
      accuracy_reward resp gt = .ok (dapoBucket q)) ∧
    (∀ a b : ℚ, a ≤ b → dapoBucket a ≤ dapoBucket b) ∧
    (∀ q : ℚ,
      (98 / 100 ≤ q → dapoBucket q = 1) ∧
      (85 / 100 ≤ q ∧ q < 98 / 100 → dapoBucket q = 8 / 10) ∧
      (7 / 10 ≤ q ∧ q < 85 / 100 → dapoBucket q = 5 / 10) ∧
      (5 / 10 ≤ q ∧ q < 7 / 10 → dapoBucket q = 2 / 10) ∧
      (3 / 10 ≤ q ∧ q < 5 / 10 → dapoBucket q = 0) ∧
      (q < 3 / 10 → dapoBucket q = -(5 / 10))) :=
  ⟨fun _ _ _ _ _ h1 h2 h3 h4 => accuracy_eq_bucket h1 h2 h3 h4,
   fun _ _ h => dapoBucket_mono h, dapoBucket_values⟩

theorem claim_C2_witness :
    accuracy_reward rGood gtS = .ok (dapoBucket 1) ∧
    dapoBucket (1 / 2) ≤ dapoBucket (3 / 5) ∧ dapoBucket (99 / 100) = 1 :=
  ⟨claim_C2.1 rGood gtS gtJ gtJ 1 extGood gtParses fmtGood simGood,
   claim_C2.2.1 (1 / 2) (3 / 5) (by norm_num),
   (claim_C2.2.2 (99 / 100)).1 (by norm_num)⟩

/-- Claim C3, counterexample: on a response with non-whitespace text
after the last closing brace, the substring the code hands to the parser
is the capture up to the last closing brace, not the trailing-trimmed
span to the end of the text that the claim describes. -/
theorem claim_C3_counterexample :
    answerJsonStr c3Resp = some "\x7b\x7d".data ∧
    c3SpecCapture c3Resp.data = some "\x7b\x7d x".data ∧
    answerJsonStr c3Resp ≠ c3SpecCapture c3Resp.data := by
  refine ⟨c3RespCode, c3RespSpec, ?_⟩
  rw [c3RespCode, c3RespSpec]
  decide

/-- Claim C3 as amended: the captured span starts at the opening brace of
the first label occurrence and ends at the last closing brace of the text
(extraction fails when no closing brace follows), no text after that
brace is captured, stripping the captured span is a no-op, and the parser
is applied to exactly that stripped span; on a multi-answer response the
span runs from the first label onward, including later literal text and
further labels. -/
theorem claim_C3 :
    (∀ (r : String) (cap : List Char), scanExtract r.data = some cap →
      pyStrip cap = cap ∧ (∃ t, cap = '{' :: t) ∧ (∃ t, cap = t ++ ['}']) ∧
      ∃ pre post, r.data = pre ++ cap ++ post ∧ ∀ c ∈ post, c ≠ '}') ∧
    scanExtract c3Multi.data = some "\x7b\"a\": 1\x7d mid Answer: \x7b\"b\": 2\x7d".data ∧
    scanExtract c3NoClose.data = none ∧
    (∀ r : String, extract_answer_json r =
      (scanExtract r.data).bind (fun cap => jsonLoads (pyStrip cap))) :=
  ⟨fun _ _ h => scanExtract_decomp h, c3MultiEval, c3NoCloseEval,
   fun r => by rw [extract_answer_json]; cases scanExtract r.data <;> rfl⟩

theorem claim_C3_witness :
    pyStrip "\x7b\"a\": 1\x7d mid Answer: \x7b\"b\": 2\x7d".data =
      "\x7b\"a\": 1\x7d mid Answer: \x7b\"b\": 2\x7d".data ∧
    (∃ t, "\x7b\"a\": 1\x7d mid Answer: \x7b\"b\": 2\x7d".data = '{' :: t) ∧
    (∃ t, "\x7b\"a\": 1\x7d mid Answer: \x7b\"b\": 2\x7d".data = t ++ ['}']) ∧
    ∃ pre post, c3Multi.data =
      pre ++ "\x7b\"a\": 1\x7d mid Answer: \x7b\"b\": 2\x7d".data ++ post ∧
      ∀ c ∈ post, c ≠ '}' :=
  claim_C3.1 c3Multi "\x7b\"a\": 1\x7d mid Answer: \x7b\"b\": 2\x7d".data c3MultiEval

/-- Claim C4, counterexample: `overlong(max, max, buffer)` equals -1.0
already for `max = 100, buffer = 20`, where `expected = 80 ≠ 0`, refuting
the "only when expected = 0" part. -/
theorem claim_C4_counterexample :
    soft_overlong_punishment 100 100 20 = -1 ∧ (100 : Int) - 20 ≠ 0 :=
  ⟨by rw [soft_overlong_punishment]; norm_num, by norm_num⟩

/-- Claim C4 as amended: `overlong(expected, max, buffer) = 0` always;
`overlong(max, max, buffer) = -1` whenever `buffer > 0` (not only when
`expected = 0`); and the three concrete values at `max = 100,
buffer = 20` are 0, -0.5 and -1. -/
theorem claim_C4 :
    (∀ m b : Int, soft_overlong_punishment (m - b) m b = 0) ∧
    (∀ m b : Int, 0 < b → soft_overlong_punishment m m b = -1) ∧
    soft_overlong_punishment 80 100 20 = 0 ∧
    soft_overlong_punishment 90 100 20 = -(5 / 10) ∧
    soft_overlong_punishment 150 100 20 = -1 :=
  ⟨overlong_at_expected, fun _ _ h => overlong_at_max h, overlong80, overlong90, overlong150⟩

theorem claim_C4_witness : soft_overlong_punishment 100 100 20 = -1 :=
  claim_C4.2.1 100 20 (by norm_num)

/-- Claim C5: whenever the schema validator returns 0.0, the accuracy
score is at most 0, whatever the ground-truth string is. -/
theorem claim_C5 (resp gt : String) (hfmt : format_reward resp = .ok 0) :
    ∃ r, accuracy_reward resp gt = .ok r ∧ r ≤ 0 :=
  accuracy_gate hfmt

theorem claim_C5_witness : ∃ r, accuracy_reward rNo gtS = .ok r ∧ r ≤ 0 :=
  claim_C5 rNo gtS fmtNo

/-- Claim C6: graph similarity and edge similarity lie in [0, 1] whenever
they return a value, and every returned accuracy score is one of the six
bucket values -0.5, 0, 0.2, 0.5, 0.8, 1. -/
theorem claim_C6 :
    (∀ (p g : Json) (q : ℚ), calculate_graph_similarity p g = .ok q → 0 ≤ q ∧ q ≤ 1) ∧
    (∀ (pe ge : Json) (q : ℚ), calculate_edge_similarity pe ge = .ok q → 0 ≤ q ∧ q ≤ 1) ∧
    (∀ (resp gt : String) (r : ℚ), accuracy_reward resp gt = .ok r →
      r = -(5 / 10) ∨ r = 0 ∨ r = 2 / 10 ∨ r = 5 / 10 ∨ r = 8 / 10 ∨ r = 1) :=
  ⟨fun _ _ _ h => graph_similarity_bounds h, fun _ _ _ h => edge_similarity_bounds h,
   fun _ _ _ h => accuracy_six h⟩

theorem claim_C6_witness :
    ((0 : ℚ) ≤ 1 ∧ (1 : ℚ) ≤ 1) ∧ ((0 : ℚ) ≤ 1 ∧ (1 : ℚ) ≤ 1) ∧
    ((1 : ℚ) = -(5 / 10) ∨ (1 : ℚ) = 0 ∨ (1 : ℚ) = 2 / 10 ∨ (1 : ℚ) = 5 / 10 ∨
      (1 : ℚ) = 8 / 10 ∨ (1 : ℚ) = 1) :=
  ⟨claim_C6.1 gtJ gtJ 1 simGood, claim_C6.2.1 gtEdge gtEdge 1 edgeSimGtGt,
   claim_C6.2.2 rGood gtS 1 accGood⟩

/-- Claim C7: on the reference fixture, the exact payload yields
format 1.0 and accuracy 1.0; the payload with `action_type` changed to
`"press"` yields format 1.0 and accuracy 0.5; a response with no
`Answer:` field yields format 0.0 and accuracy -0.5. -/
theorem claim_C7 :
    format_reward rGood = .ok 1 ∧ accuracy_reward rGood gtS = .ok 1 ∧
    format_reward rPress = .ok 1 ∧ accuracy_reward rPress gtS = .ok (5 / 10) ∧
    format_reward rNo = .ok 0 ∧ accuracy_reward rNo gtS = .ok (-(5 / 10)) :=
  ⟨fmtGood, accGood, fmtPress, accPress, fmtNo, accNo⟩

/-- Claim C8: the objects component compares the unordered pairs by exact
string set equality (1.0 iff the pairs agree up to order); swapping
object1 and object2 in either edge never changes EdgeSimilarity; and a
slash-alias label such as "faucet / handle" matches only the identical
full string (similarity 3/4 against the bare "faucet" edge, 1 against an
identical edge). -/
theorem claim_C8 :
    (∀ (pe ge : Json) (o1 o2 g1 g2 : String),
      dictGet pe "object1" = .ok (.str o1) →
      dictGet pe "object2" = .ok (.str o2) →
      dictGet ge "object1" = .ok (.str g1) →
      dictGet ge "object2" = .ok (.str g2) →
      edgeObjectsScore pe ge =
        .ok (if (o1 = g1 ∧ o2 = g2) ∨ (o1 = g2 ∧ o2 = g1) then 1 else 0)) ∧
    (∀ o1 o2 fr sr it ge : Json,
      calculate_edge_similarity (mkEdgeJson o1 o2 fr sr it) ge =
        calculate_edge_similarity (mkEdgeJson o2 o1 fr sr it) ge) ∧
    (∀ pe g1 g2 fr sr it : Json,
      calculate_edge_similarity pe (mkEdgeJson g1 g2 fr sr it) =
        calculate_edge_similarity pe (mkEdgeJson g2 g1 fr sr it)) ∧
    calculate_edge_similarity slashEdge baseEdge = .ok (3 / 4) ∧
    calculate_edge_similarity slashEdge slashEdge = .ok 1 :=
  ⟨c8_objects, edge_sim_swap_pred, edge_sim_swap_gt, simSlashBase, simSlashSlash⟩

theorem claim_C8_witness :
    edgeObjectsScore baseEdge baseEdge =
      .ok (if ("faucet" = "faucet" ∧ "sink" = "sink") ∨
        ("faucet" = "sink" ∧ "sink" = "faucet") then 1 else 0) :=
  claim_C8.1 baseEdge baseEdge "faucet" "sink" "faucet" "sink" rfl rfl rfl rfl

/-- Claim C9: evaluation of the code at the failing input: a batch whose
single sample has string response and ground-truth fields makes
`compute_score` raise a `TypeError` (the `action_type not in
VALID_ACTION_TYPES` membership test hashes an unhashable list), aborting
the batch instead of returning a reward record. -/
theorem claim_C9 :
    compute_score [⟨badHashResp, gtS⟩] 100 20 1 (1 / 5) =
      .error (.typeError "unhashable type") :=
  c9BadEval

/-- Claim C10: the schema validator never inspects the type of
`function_type`, the types of `nodes` elements, or the types of
`object1`/`object2`: a payload with a numeric `function_type`, a numeric
node, and numeric/boolean objects still gets format 1.0. -/
theorem claim_C10 :
    format_reward c10Resp = .ok 1 ∧
    extract_answer_json c10Resp = some (Json.obj [
      ("task_instruction", .str "turn on the lamp"),
      ("nodes", .arr [.num 3, .str "lamp"]),
      ("edges", .arr [.obj [
        ("functional_relationship", .str "control"),
        ("object1", .num 7),
        ("object2", .bool true),
        ("spatial_relations", .arr [.str "close"]),
        ("is_touching", .bool true)]]),
      ("action_type", .str "press"),
      ("function_type", .num 5)]) :=
  ⟨c10FmtEval, c10ExtEval⟩
